import Mathlib

/-!
# Logistics calculator (`src/src/App.jsx`): pricing and form controller

A shallow embedding of the `App` component's logic.

* JavaScript numbers are embedded twice.  In the exact layer (`Num`,
  `calculatePrice`) a finite number is an exact rational and no operation
  rounds; it carries the statements that are relations of real numbers (line
  items, multipliers, signs) and the form controller.  In the double-precision
  layer (`F64`, `round64`, `calculatePrice64`) every operation is rounded as
  IEEE 754 binary64 does it and overflows to an infinity; it carries the
  statements that rounding decides (the comparison with 0.01, the total with
  insurance, growth with the distance).
* The five form fields read by `calculatePrice` hold dynamically typed values
  (`Value`): the initial state stores numbers, `handleChange` stores the
  string (or the boolean) carried by the event, and the arithmetic of
  `calculatePrice` coerces them with `toNumber`.
* The routing provider is a parameter (`RouteReply`) of `getDistance`; every
  request that is issued is recorded in a log.
-/

namespace Crown

/-! ## Numbers -/

/-- JavaScript number: `fin q` is the finite number `q`, `nan` is `NaN`. -/
inductive Num where
  | fin (q : ℚ)
  | nan
  deriving DecidableEq

namespace Num

/-- The operator `+` on numbers. -/
def add : Num → Num → Num
  | fin a, fin b => fin (a + b)
  | _, _ => nan

/-- The operator `*` on numbers. -/
def mul : Num → Num → Num
  | fin a, fin b => fin (a * b)
  | _, _ => nan

/-- The operator `/` on numbers.  Both divisions of the program have a nonzero
literal as divisor (`1000000`, `1000`); the quotient by zero, an infinity or
`NaN` in JavaScript, is given as `nan`. -/
def div : Num → Num → Num
  | fin a, fin b => if b = 0 then nan else fin (a / b)
  | _, _ => nan

/-- Unary minus. -/
def neg : Num → Num
  | fin a => fin (-a)
  | nan => nan

/-- The comparison `a > b`: false as soon as one side is `NaN`. -/
def gt : Num → Num → Bool
  | fin a, fin b => decide (a > b)
  | _, _ => false

/-- The number is finite and at least zero. -/
def NonNeg : Num → Prop
  | fin a => 0 ≤ a
  | nan => False

/-- The number is finite and above zero. -/
def Pos : Num → Prop
  | fin a => 0 < a
  | nan => False

/-- Order on finite numbers: `a ≤ b`, both finite. -/
def Le : Num → Num → Prop
  | fin a, fin b => a ≤ b
  | _, _ => False

/-- Strict order on finite numbers: `a < b`, both finite. -/
def Lt : Num → Num → Prop
  | fin a, fin b => a < b
  | _, _ => False

end Num

/-! ## Values stored in the form and their coercions -/

/-- The values the five shipment fields of `formData` can hold: a boolean
(`checked`), a number (the initial state) or a string (`value`). -/
inductive Value where
  | bool (b : Bool)
  | num (q : ℚ)
  | str (s : String)
  deriving DecidableEq

/-- The class `StrWhiteSpaceChar`: the white space and line terminator code points that
`StringToNumber` strips from both ends. -/
def isStrWhiteSpace (c : Char) : Bool :=
  c.toNat ∈ [9, 10, 11, 12, 13, 32, 160, 5760, 8192, 8193, 8194, 8195, 8196, 8197,
    8198, 8199, 8200, 8201, 8202, 8232, 8233, 8239, 8287, 12288, 65279]

/-- Value of a digit in the given radix (letters in either case), if it is one. -/
def digitValue (radix : Nat) (c : Char) : Option Nat :=
  let n := c.toNat
  let v :=
    if 48 ≤ n ∧ n ≤ 57 then some (n - 48)
    else if 97 ≤ n ∧ n ≤ 122 then some (n - 87)
    else if 65 ≤ n ∧ n ≤ 90 then some (n - 55)
    else none
  match v with
  | some d => if d < radix then some d else none
  | none => none

/-- The longest run of leading digits (in the radix) and what follows it. -/
def takeDigits (radix : Nat) : List Char → List Nat × List Char
  | [] => ([], [])
  | c :: cs =>
    match digitValue radix c with
    | some d => (d :: (takeDigits radix cs).1, (takeDigits radix cs).2)
    | none => ([], c :: cs)

/-- Mathematical value of a digit sequence, most significant digit first. -/
def digitsToNat (radix : Nat) (ds : List Nat) : Nat :=
  ds.foldl (fun acc d => radix * acc + d) 0

/-- The production `ExponentPart_opt` at the end of a literal: the exponent (0 when absent),
or `none` when what remains is not an exponent part. -/
def exponentPart : List Char → Option Int
  | [] => some 0
  | c :: cs =>
    if c = 'e' ∨ c = 'E' then
      let (negative, body) :=
        match cs with
        | '+' :: r => (false, r)
        | '-' :: r => (true, r)
        | r => (false, r)
      match takeDigits 10 body with
      | ([], _) => none
      | (d :: ds, []) =>
        let e : Int := digitsToNat 10 (d :: ds)
        some (if negative then -e else e)
      | (_ :: _, _ :: _) => none
    else none

/-- The production `StrUnsignedDecimalLiteral` without the literal `Infinity`:
`digits . digits? exp?`, `. digits exp?` or `digits exp?`. -/
def strUnsignedDecimalLiteral (cs : List Char) : Num :=
  let intPart := takeDigits 10 cs
  let fracPart : List Nat × List Char :=
    match intPart.2 with
    | '.' :: r => takeDigits 10 r
    | r => ([], r)
  if intPart.1 = [] ∧ fracPart.1 = [] then Num.nan
  else
    match exponentPart fracPart.2 with
    | none => Num.nan
    | some e =>
      Num.fin ((digitsToNat 10 (intPart.1 ++ fracPart.1) : ℚ)
        * (10 : ℚ) ^ (e - (fracPart.1.length : Int)))

/-- The production `NonDecimalIntegerLiteral`: `0x`, `0o` or `0b` (either case) followed by
one or more digits of that radix and nothing else. -/
def nonDecimalIntegerLiteral (cs : List Char) : Option Num :=
  match cs with
  | '0' :: p :: ds =>
    let radix : Option Nat :=
      if p = 'x' ∨ p = 'X' then some 16
      else if p = 'o' ∨ p = 'O' then some 8
      else if p = 'b' ∨ p = 'B' then some 2
      else none
    match radix with
    | none => none
    | some r =>
      match takeDigits r ds with
      | (d :: body, []) => some (Num.fin (digitsToNat r (d :: body) : ℚ))
      | _ => some Num.nan
  | _ => none

/-- The operation `StringToNumber`: white space is stripped, the empty string is 0, a decimal
or non-decimal literal has its value and everything else is `NaN`.  The literal
`Infinity` has no finite value and is not represented (an `<input
type="number">` never reports it). -/
def stringToNumber (s : String) : Num :=
  let cs := ((s.toList.dropWhile isStrWhiteSpace).reverse.dropWhile isStrWhiteSpace).reverse
  match cs with
  | [] => Num.fin 0
  | '+' :: r => strUnsignedDecimalLiteral r
  | '-' :: r => (strUnsignedDecimalLiteral r).neg
  | _ =>
    match nonDecimalIntegerLiteral cs with
    | some n => n
    | none => strUnsignedDecimalLiteral cs

/-- The operation `ToNumber`, the coercion applied by `*` to its operands. -/
def toNumber : Value → Num
  | .bool b => Num.fin (if b then 1 else 0)
  | .num q => Num.fin q
  | .str s => stringToNumber s

/-- The operation `ToBoolean`, the coercion applied by `? :` to its condition. -/
def toBoolean : Value → Bool
  | .bool b => b
  | .num q => decide (q ≠ 0)
  | .str s => decide (s ≠ "")

/-! ## Form state -/

/-- A coordinate pair `{ lat, lon }`. -/
structure Coords where
  lat : ℚ
  lon : ℚ
  deriving DecidableEq

/-- The state `formData`.  `pickupCoords` and `deliveryCoords` are `null`
(`none`) or a coordinate object. -/
structure FormData where
  pickupLocation : String
  pickupCoords : Option Coords
  deliveryLocation : String
  deliveryCoords : Option Coords
  length : Value
  width : Value
  height : Value
  packageType : Value
  isInsuranceRequired : Value
  deriving DecidableEq

/-- The argument of `React.useState` for `formData`. -/
def initialFormData : FormData :=
  { pickupLocation := ""
    pickupCoords := none
    deliveryLocation := ""
    deliveryCoords := none
    length := .num 10
    width := .num 10
    height := .num 10
    packageType := .str "standard"
    isInsuranceRequired := .bool false }

/-- The part of an autocomplete feature that the select handlers read:
`suggestion.properties.{formatted, lat, lon}`. -/
structure Suggestion where
  formatted : String
  lat : ℚ
  lon : ℚ

/-- The handler `handlePickupSelect`: the update it passes to `setFormData`. -/
def handlePickupSelect (suggestion : Suggestion) (prev : FormData) : FormData :=
  { prev with
    pickupLocation := suggestion.formatted
    pickupCoords := some { lat := suggestion.lat, lon := suggestion.lon } }

/-- The handler `handleDeliverySelect`: the update it passes to `setFormData`. -/
def handleDeliverySelect (suggestion : Suggestion) (prev : FormData) : FormData :=
  { prev with
    deliveryLocation := suggestion.formatted
    deliveryCoords := some { lat := suggestion.lat, lon := suggestion.lon } }

/-- The fields `{ id, value, checked, type }` of `e.target`. -/
structure Target where
  id : String
  value : String
  checked : Bool
  type : String

/-- The object spread `{ ...prev, [id]: v }` of the last two branches of
`handleChange`, for the computed key `id`.  The inputs that reach these
branches have the ids `length`, `width`, `height`, `packageType` and
`isInsuranceRequired` (the two location inputs are handled by the earlier
branches).  No rendered element has another id; a write under another key is
left out of the state. -/
def setField (prev : FormData) (id : String) (v : Value) : FormData :=
  if id = "length" then { prev with length := v }
  else if id = "width" then { prev with width := v }
  else if id = "height" then { prev with height := v }
  else if id = "packageType" then { prev with packageType := v }
  else if id = "isInsuranceRequired" then { prev with isInsuranceRequired := v }
  else prev

/-- The handler `handleChange`: the update it passes to `setFormData`. -/
def handleChange (e : Target) (prev : FormData) : FormData :=
  if e.id = "pickupLocation" then
    { prev with pickupLocation := e.value, pickupCoords := none }
  else if e.id = "deliveryLocation" then
    { prev with deliveryLocation := e.value, deliveryCoords := none }
  else if e.type = "checkbox" then
    setField prev e.id (.bool e.checked)
  else
    setField prev e.id (.str e.value)

/-! ## Pricing -/

/-- The constant `BASE_RATE`. -/
def BASE_RATE : ℚ := 80

/-- The constant `RATE_PER_KM`. -/
def RATE_PER_KM : ℚ := 2

/-- The constant `SERVICE_CHARGE`. -/
def SERVICE_CHARGE : ℚ := 50

/-- The lookup `packageMultipliers[formData.packageType]` in the object literal
`{ standard: 1, fragile: 1.5, document: 0.8 }`.  `none` is a lookup that finds
no number: `undefined` for a key that is absent (such as `"express"`, or the
key of a boolean or a number), a member of `Object.prototype` for a key that
is inherited (such as `"toString"`). -/
def packageMultipliers (packageType : Value) : Option ℚ :=
  match packageType with
  | .str s =>
    if s = "standard" then some 1
    else if s = "fragile" then some (3 / 2)
    else if s = "document" then some (4 / 5)
    else none
  | _ => none

/-- The coercion `ToNumber` of the result of the lookup: `undefined`, a function and the
prototype object all coerce to `NaN`. -/
def lookupToNumber : Option ℚ → Num
  | some q => Num.fin q
  | none => Num.nan

/-- The object returned by `calculatePrice`. -/
structure Breakdown where
  baseRate : Num
  distanceCost : Num
  serviceCharge : Num
  fuelSurcharge : Num
  volumeCharge : Num
  packageMultiplier : Option ℚ
  insuranceCost : Num
  totalPrice : Num
  distance : Num
  deriving DecidableEq

/-- The expression `(formData.length * formData.width * formData.height) / 1000000`. -/
def volume (formData : FormData) : Num :=
  (((toNumber formData.length).mul (toNumber formData.width)).mul
    (toNumber formData.height)).div (Num.fin 1000000)

/-- The expression `volume > 0.01 ? volume * 100 : 0`. -/
def volumeCharge (formData : FormData) : Num :=
  if (volume formData).gt (Num.fin (1 / 100)) then (volume formData).mul (Num.fin 100)
  else Num.fin 0

/-- The function `calculatePrice`, with the `formData` of its closure as first argument. -/
def calculatePrice (formData : FormData) (distance : Num) : Breakdown :=
  let FUEL_SURCHARGE := distance.mul (Num.fin (1 / 2))
  let volumeCharge := volumeCharge formData
  let totalPrice :=
    ((((Num.fin BASE_RATE).add (distance.mul (Num.fin RATE_PER_KM))).add
      (Num.fin SERVICE_CHARGE)).add FUEL_SURCHARGE).add volumeCharge
  let totalPrice := totalPrice.mul (lookupToNumber (packageMultipliers formData.packageType))
  let insuranceCost :=
    if toBoolean formData.isInsuranceRequired then totalPrice.mul (Num.fin (1 / 10))
    else Num.fin 0
  let totalPrice := totalPrice.add insuranceCost
  { baseRate := Num.fin BASE_RATE
    distanceCost := distance.mul (Num.fin RATE_PER_KM)
    serviceCharge := Num.fin SERVICE_CHARGE
    fuelSurcharge := FUEL_SURCHARGE
    volumeCharge := volumeCharge
    packageMultiplier := packageMultipliers formData.packageType
    insuranceCost := insuranceCost
    totalPrice := totalPrice
    distance := distance }

/-! ## Distance lookup and submission -/

/-- What the routing provider does with the request of `getDistance`.
`failure msg`: a step inside the `try` block throws an error with message
`msg` (`fetch` or `response.json()` rejects, or
`data.features[0].properties.distance` cannot be read).  `notOk`: a response
whose `ok` is false.  `meters m`: a response whose body yields
`distanceInMeters`, as the number it coerces to. -/
inductive RouteReply where
  | failure (message : String)
  | notOk
  | meters (m : Num)

/-- The routing request: the way-points interpolated into the URL. -/
structure RouteRequest where
  lat1 : ℚ
  lon1 : ℚ
  lat2 : ℚ
  lon2 : ℚ
  deriving DecidableEq

/-- The function `getDistance`: the distance in kilometres or the message of the error it
throws, together with the requests it sent. -/
def getDistance (formData : FormData) (reply : RouteRequest → RouteReply) :
    Except String Num × List RouteRequest :=
  match formData.pickupCoords, formData.deliveryCoords with
  | some p, some d =>
    let request : RouteRequest := { lat1 := p.lat, lon1 := p.lon, lat2 := d.lat, lon2 := d.lon }
    match reply request with
    | .failure message => (.error ("Error calculating distance: " ++ message), [request])
    | .notOk =>
      (.error ("Error calculating distance: " ++ "Failed to calculate route distance"), [request])
    | .meters m => (.ok (m.div (Num.fin 1000)), [request])
  | _, _ => (.error "Please select valid pickup and delivery locations", [])

/-- The state of the component that a submission reads and writes. -/
structure AppState where
  formData : FormData
  error : String
  result : Option Breakdown
  loading : Bool
  deriving DecidableEq

/-- The initial state of the component. -/
def initialAppState : AppState :=
  { formData := initialFormData, error := "", result := none, loading := false }

/-- The handler `handleSubmit`, run to completion: the state after the `finally` block and
the routing requests sent on the way. -/
def handleSubmit (s : AppState) (reply : RouteRequest → RouteReply) :
    AppState × List RouteRequest :=
  let s1 : AppState := { s with error := "", result := none, loading := true }
  match getDistance s.formData reply with
  | (.ok distance, sent) =>
    ({ s1 with result := some (calculatePrice s.formData distance), loading := false }, sent)
  | (.error message, sent) =>
    ({ s1 with error := message, loading := false }, sent)

/-- The form states reachable from the initial one by the three handlers that
write `formData`. -/
inductive Reachable : FormData → Prop where
  | init : Reachable initialFormData
  | change (e : Target) {fd : FormData} : Reachable fd → Reachable (handleChange e fd)
  | pickupSelect (sg : Suggestion) {fd : FormData} :
      Reachable fd → Reachable (handlePickupSelect sg fd)
  | deliverySelect (sg : Suggestion) {fd : FormData} :
      Reachable fd → Reachable (handleDeliverySelect sg fd)

/-! ## Double-precision arithmetic

The same pricing function with every operation rounded as IEEE 754 binary64
does it (round to nearest, ties to even, gradual underflow, overflow to an
infinity).  The sign of a zero is not represented: no operation of
`calculatePrice` observes it. -/

/-- Rounding of a rational to the nearest integer, ties to the even one. -/
def roundHalfEven (y : ℚ) : ℤ :=
  if y - ⌊y⌋ < 1 / 2 then ⌊y⌋
  else if 1 / 2 < y - ⌊y⌋ then ⌊y⌋ + 1
  else if ⌊y⌋ % 2 = 0 then ⌊y⌋
  else ⌊y⌋ + 1

/-- Exponent of the unit in the last place of a binary64 number near `x`: the
significand has 53 bits, and the exponent does not go below -1074
(subnormal numbers). -/
def exponent64 (x : ℚ) : ℤ := max (Int.log 2 |x| - 52) (-1074)

/-- Rounding of a rational to binary64 with an exponent unbounded above; a
result of magnitude `2 ^ 1024` or more stands for an overflow. -/
def round64 (x : ℚ) : ℚ :=
  (roundHalfEven (x / 2 ^ exponent64 x) : ℚ) * 2 ^ exponent64 x

/-- JavaScript number in double precision: a finite double (as the rational it
is), an infinity (`inf true` is `-Infinity`) or `NaN`. -/
inductive F64 where
  | fin (q : ℚ)
  | inf (negative : Bool)
  | nan
  deriving DecidableEq

namespace F64

/-- The double nearest to a rational, an infinity when it overflows. -/
def ofRat (x : ℚ) : F64 :=
  if |round64 x| < 2 ^ 1024 then fin (round64 x) else inf (decide (x < 0))

/-- The operator `+` on doubles. -/
def add : F64 → F64 → F64
  | fin a, fin b => ofRat (a + b)
  | fin _, inf s => inf s
  | inf s, fin _ => inf s
  | inf s, inf t => if s = t then inf s else nan
  | _, _ => nan

/-- The operator `*` on doubles. -/
def mul : F64 → F64 → F64
  | fin a, fin b => ofRat (a * b)
  | fin a, inf s => if a = 0 then nan else inf (xor (decide (a < 0)) s)
  | inf s, fin b => if b = 0 then nan else inf (xor s (decide (b < 0)))
  | inf s, inf t => inf (xor s t)
  | _, _ => nan

/-- The operator `/` on doubles.  Both divisions of the program have a nonzero
literal as divisor (`1000000`, `1000`); the quotient by zero, whose sign
depends on the sign of the zero, is given as `nan`. -/
def div : F64 → F64 → F64
  | fin a, fin b => if b = 0 then nan else ofRat (a / b)
  | fin _, inf _ => fin 0
  | inf s, fin b => if b = 0 then nan else inf (xor s (decide (b < 0)))
  | _, _ => nan

/-- The comparison `a > b` on doubles: false as soon as one side is `NaN`. -/
def gt : F64 → F64 → Bool
  | fin a, fin b => decide (a > b)
  | inf false, fin _ => true
  | inf false, inf true => true
  | fin _, inf true => true
  | _, _ => false

/-- The double is at least zero (`Infinity` included). -/
def NonNeg : F64 → Prop
  | fin a => 0 ≤ a
  | inf s => s = false
  | nan => False

/-- The double is above zero (`Infinity` included). -/
def Pos : F64 → Prop
  | fin a => 0 < a
  | inf s => s = false
  | nan => False

/-- Order on doubles: `a <= b`, neither being `NaN`. -/
def Le : F64 → F64 → Prop
  | fin a, fin b => a ≤ b
  | fin _, inf t => t = false
  | inf s, fin _ => s = true
  | inf s, inf t => s = true ∨ t = false
  | _, _ => False

/-- Strict order on doubles: `a < b`, neither being `NaN`. -/
def Lt : F64 → F64 → Prop
  | fin a, fin b => a < b
  | fin _, inf t => t = false
  | inf s, fin _ => s = true
  | inf s, inf t => s = true ∧ t = false
  | _, _ => False

end F64

/-- The operation `StringToNumber` in double precision: the literal `Infinity`
with an optional sign, otherwise the double nearest to the value of the
literal. -/
def stringToNumber64 (s : String) : F64 :=
  let cs := ((s.toList.dropWhile isStrWhiteSpace).reverse.dropWhile isStrWhiteSpace).reverse
  if cs = "Infinity".toList ∨ cs = "+Infinity".toList then F64.inf false
  else if cs = "-Infinity".toList then F64.inf true
  else
    match stringToNumber s with
    | Num.fin q => F64.ofRat q
    | Num.nan => F64.nan

/-- The operation `ToNumber` in double precision.  A stored number is a
double already. -/
def toNumber64 : Value → F64
  | .bool b => F64.fin (if b then 1 else 0)
  | .num q => F64.fin q
  | .str s => stringToNumber64 s

/-- The table `packageMultipliers` in double precision: 1 and 1.5 are doubles,
0.8 is the double nearest to it. -/
def packageMultipliers64 (packageType : Value) : Option ℚ :=
  match packageType with
  | .str s =>
    if s = "standard" then some 1
    else if s = "fragile" then some (3 / 2)
    else if s = "document" then some (round64 (4 / 5))
    else none
  | _ => none

/-- The coercion `ToNumber` of the result of the lookup, in double precision. -/
def lookupToNumber64 : Option ℚ → F64
  | some q => F64.fin q
  | none => F64.nan

/-- The object returned by `calculatePrice`, in double precision. -/
structure Breakdown64 where
  baseRate : F64
  distanceCost : F64
  serviceCharge : F64
  fuelSurcharge : F64
  volumeCharge : F64
  packageMultiplier : Option ℚ
  insuranceCost : F64
  totalPrice : F64
  distance : F64
  deriving DecidableEq

/-- The expression `(formData.length * formData.width * formData.height) / 1000000`
in double precision. -/
def volume64 (formData : FormData) : F64 :=
  (((toNumber64 formData.length).mul (toNumber64 formData.width)).mul
    (toNumber64 formData.height)).div (F64.fin 1000000)

/-- The expression `volume > 0.01 ? volume * 100 : 0` in double precision; the
literal `0.01` is the double nearest to it. -/
def volumeCharge64 (formData : FormData) : F64 :=
  if (volume64 formData).gt (F64.fin (round64 (1 / 100)))
  then (volume64 formData).mul (F64.fin 100)
  else F64.fin 0

/-- The function `calculatePrice` in double precision, with the `formData` of
its closure as first argument.  The literal `0.5` is a double, `0.1` is the
double nearest to it. -/
def calculatePrice64 (formData : FormData) (distance : F64) : Breakdown64 :=
  let FUEL_SURCHARGE := distance.mul (F64.fin (1 / 2))
  let volumeCharge := volumeCharge64 formData
  let totalPrice :=
    ((((F64.fin BASE_RATE).add (distance.mul (F64.fin RATE_PER_KM))).add
      (F64.fin SERVICE_CHARGE)).add FUEL_SURCHARGE).add volumeCharge
  let totalPrice :=
    totalPrice.mul (lookupToNumber64 (packageMultipliers64 formData.packageType))
  let insuranceCost :=
    if toBoolean formData.isInsuranceRequired
    then totalPrice.mul (F64.fin (round64 (1 / 10)))
    else F64.fin 0
  let totalPrice := totalPrice.add insuranceCost
  { baseRate := F64.fin BASE_RATE
    distanceCost := distance.mul (F64.fin RATE_PER_KM)
    serviceCharge := F64.fin SERVICE_CHARGE
    fuelSurcharge := FUEL_SURCHARGE
    volumeCharge := volumeCharge
    packageMultiplier := packageMultipliers64 formData.packageType
    insuranceCost := insuranceCost
    totalPrice := totalPrice
    distance := distance }

/-- The form state after Kathmandu and Pokhara are selected and 5 is typed into
the Length input. -/
def lengthFiveForm : FormData :=
  { pickupLocation := "Kathmandu"
    pickupCoords := some { lat := 27, lon := 85 }
    deliveryLocation := "Pokhara"
    deliveryCoords := some { lat := 28, lon := 84 }
    length := .str "5"
    width := .num 10
    height := .num 10
    packageType := .str "standard"
    isInsuranceRequired := .bool false }

/-! ## Auxiliary facts -/

theorem Num.add_fin (a b : ℚ) : (Num.fin a).add (Num.fin b) = Num.fin (a + b) := rfl

theorem Num.mul_fin (a b : ℚ) : (Num.fin a).mul (Num.fin b) = Num.fin (a * b) := rfl

theorem Num.div_fin (a b : ℚ) (hb : b ≠ 0) : (Num.fin a).div (Num.fin b) = Num.fin (a / b) := by
  simp [Num.div, hb]

theorem Num.gt_fin (a b : ℚ) : (Num.fin a).gt (Num.fin b) = decide (b < a) := rfl

/-- The volume when the three dimensions coerce to finite numbers. -/
theorem volume_of_fin (fd : FormData) (l w h : ℚ) (hl : toNumber fd.length = Num.fin l)
    (hw : toNumber fd.width = Num.fin w) (hh : toNumber fd.height = Num.fin h) :
    volume fd = Num.fin (l * w * h / 1000000) := by
  simp [volume, hl, hw, hh, Num.mul_fin, Num.div_fin]

/-- The volume charge when the three dimensions coerce to finite numbers. -/
theorem volumeCharge_of_fin (fd : FormData) (l w h : ℚ) (hl : toNumber fd.length = Num.fin l)
    (hw : toNumber fd.width = Num.fin w) (hh : toNumber fd.height = Num.fin h) :
    volumeCharge fd =
      Num.fin (if 1 / 100 < l * w * h / 1000000 then l * w * h / 1000000 * 100 else 0) := by
  rw [volumeCharge, volume_of_fin fd l w h hl hw hh, Num.gt_fin, Num.mul_fin]
  simp only [decide_eq_true_eq]
  split_ifs <;> rfl

/-- The table on its three keys. -/
theorem packageMultipliers_of_known (pt : String)
    (hpt : pt = "standard" ∨ pt = "fragile" ∨ pt = "document") :
    packageMultipliers (.str pt) =
      some (if pt = "standard" then 1 else if pt = "fragile" then 3 / 2 else 4 / 5) := by
  rcases hpt with rfl | rfl | rfl <;> simp [packageMultipliers]

/-- Closed form of the breakdown when the distance and the volume charge are
finite and the package type is in the table. -/
theorem calculatePrice_of_fin (fd : FormData) (d v m : ℚ)
    (hv : volumeCharge fd = Num.fin v) (hm : packageMultipliers fd.packageType = some m) :
    calculatePrice fd (Num.fin d) =
      { baseRate := Num.fin 80
        distanceCost := Num.fin (d * 2)
        serviceCharge := Num.fin 50
        fuelSurcharge := Num.fin (d * (1 / 2))
        volumeCharge := Num.fin v
        packageMultiplier := some m
        insuranceCost :=
          Num.fin (if toBoolean fd.isInsuranceRequired
            then (80 + d * 2 + 50 + d * (1 / 2) + v) * m * (1 / 10) else 0)
        totalPrice :=
          Num.fin ((80 + d * 2 + 50 + d * (1 / 2) + v) * m
            + (if toBoolean fd.isInsuranceRequired
                then (80 + d * 2 + 50 + d * (1 / 2) + v) * m * (1 / 10) else 0))
        distance := Num.fin d } := by
  cases hb : toBoolean fd.isInsuranceRequired <;>
    simp [calculatePrice, hv, hm, hb, lookupToNumber, Num.add_fin, Num.mul_fin, BASE_RATE,
      RATE_PER_KM, SERVICE_CHARGE]

/-! ## The price breakdown -/

/-- C1: for every finite distance, every finite length, width and height, every
insurance flag and every package type among standard, fragile and document,
the breakdown has baseRate 80, distanceCost 2 * distance, serviceCharge 50,
fuelSurcharge 0.5 * distance, packageMultiplier 1, 1.5 or 0.8 respectively,
insuranceCost 0 when the flag is false and 0.1 times the multiplied subtotal
when it is true, and totalPrice equal to the multiplied subtotal plus
insuranceCost. -/
theorem calculatePrice_breakdown (fd : FormData) (d l w h : ℚ) (pt : String) (ins : Bool)
    (hl : toNumber fd.length = Num.fin l) (hw : toNumber fd.width = Num.fin w)
    (hh : toNumber fd.height = Num.fin h) (hp : fd.packageType = .str pt)
    (hpt : pt = "standard" ∨ pt = "fragile" ∨ pt = "document")
    (hi : fd.isInsuranceRequired = .bool ins) :
    ∃ v m ic : ℚ,
      calculatePrice fd (Num.fin d) =
        { baseRate := Num.fin 80
          distanceCost := Num.fin (2 * d)
          serviceCharge := Num.fin 50
          fuelSurcharge := Num.fin (1 / 2 * d)
          volumeCharge := Num.fin v
          packageMultiplier := some m
          insuranceCost := Num.fin ic
          totalPrice := Num.fin ((80 + 2 * d + 50 + 1 / 2 * d + v) * m + ic)
          distance := Num.fin d } ∧
      m = (if pt = "standard" then 1 else if pt = "fragile" then 3 / 2 else 4 / 5) ∧
      ic = (if ins = true then 1 / 10 * ((80 + 2 * d + 50 + 1 / 2 * d + v) * m) else 0) := by
  refine ⟨if 1 / 100 < l * w * h / 1000000 then l * w * h / 1000000 * 100 else 0, _, _, ?_,
    rfl, rfl⟩
  rw [calculatePrice_of_fin fd d _ _ (volumeCharge_of_fin fd l w h hl hw hh)
    (hp ▸ packageMultipliers_of_known pt hpt), hi]
  cases ins <;> simp [toBoolean, mul_comm]

/-- Witness of C1: a fragile, insured shipment of 50 x 40 x 50 cm (typed into
the form, hence strings) over 100 km: volume charge 10, subtotal 390,
multiplied subtotal 585, insurance 58.5, total 643.5. -/
theorem calculatePrice_breakdown_witness :
    calculatePrice
      { initialFormData with
        length := .str "50", width := .str "40", height := .str "50",
        packageType := .str "fragile", isInsuranceRequired := .bool true } (Num.fin 100) =
      { baseRate := Num.fin 80
        distanceCost := Num.fin 200
        serviceCharge := Num.fin 50
        fuelSurcharge := Num.fin 50
        volumeCharge := Num.fin 10
        packageMultiplier := some (3 / 2)
        insuranceCost := Num.fin (117 / 2)
        totalPrice := Num.fin (1287 / 2)
        distance := Num.fin 100 } := by
  have h50 : toNumber (.str "50") = Num.fin 50 := by
    simp [toNumber, stringToNumber, isStrWhiteSpace, nonDecimalIntegerLiteral,
      strUnsignedDecimalLiteral, takeDigits, digitValue, exponentPart, digitsToNat]
  have h40 : toNumber (.str "40") = Num.fin 40 := by
    simp [toNumber, stringToNumber, isStrWhiteSpace, nonDecimalIntegerLiteral,
      strUnsignedDecimalLiteral, takeDigits, digitValue, exponentPart, digitsToNat]
  obtain ⟨v, m, ic, hb, hm, hic⟩ := calculatePrice_breakdown
    { initialFormData with
      length := .str "50", width := .str "40", height := .str "50",
      packageType := .str "fragile", isInsuranceRequired := .bool true }
    100 50 40 50 "fragile" true h50 h40 h50 rfl (Or.inr (Or.inl rfl)) rfl
  have hv : v = 10 := by
    have h1 := congrArg Breakdown.volumeCharge hb
    have h2 : (calculatePrice
        { initialFormData with
          length := .str "50", width := .str "40", height := .str "50",
          packageType := .str "fragile", isInsuranceRequired := .bool true }
        (Num.fin 100)).volumeCharge = Num.fin 10 := by
      show volumeCharge _ = _
      rw [volumeCharge_of_fin _ 50 40 50 h50 h40 h50]
      norm_num
    rw [h2] at h1
    injection h1 with h1
    exact h1.symm
  have hm2 : m = 3 / 2 := by
    rw [hm]
    simp
  rw [hb]
  subst hv hm2
  rw [hic]
  norm_num

/-- C4: without insurance, the total for a fragile package is 1.5 times, and
the total for a document 0.8 times, the total for a standard package of the
same distance and dimensions, which is the subtotal
baseRate + distanceCost + serviceCharge + fuelSurcharge + volumeCharge. -/
theorem calculatePrice_multiplier (fd : FormData) (d l w h : ℚ)
    (hl : toNumber fd.length = Num.fin l) (hw : toNumber fd.width = Num.fin w)
    (hh : toNumber fd.height = Num.fin h)
    (hins : toBoolean fd.isInsuranceRequired = false) :
    ∃ t v : ℚ,
      (calculatePrice { fd with packageType := .str "standard" } (Num.fin d)).volumeCharge
        = Num.fin v ∧
      t = 80 + 2 * d + 50 + 1 / 2 * d + v ∧
      (calculatePrice { fd with packageType := .str "standard" } (Num.fin d)).totalPrice
        = Num.fin t ∧
      (calculatePrice { fd with packageType := .str "fragile" } (Num.fin d)).totalPrice
        = Num.fin (3 / 2 * t) ∧
      (calculatePrice { fd with packageType := .str "document" } (Num.fin d)).totalPrice
        = Num.fin (4 / 5 * t) := by
  refine ⟨_, if 1 / 100 < l * w * h / 1000000 then l * w * h / 1000000 * 100 else 0, ?_, rfl,
    ?_, ?_, ?_⟩
  · exact volumeCharge_of_fin _ l w h hl hw hh
  · rw [calculatePrice_of_fin { fd with packageType := .str "standard" } d _ 1
      (volumeCharge_of_fin _ l w h hl hw hh) (by simp [packageMultipliers])]
    simp [hins, mul_comm]
  · rw [calculatePrice_of_fin { fd with packageType := .str "fragile" } d _ (3 / 2)
      (volumeCharge_of_fin _ l w h hl hw hh) (by simp [packageMultipliers])]
    simp [hins, mul_comm]
  · rw [calculatePrice_of_fin { fd with packageType := .str "document" } d _ (4 / 5)
      (volumeCharge_of_fin _ l w h hl hw hh) (by simp [packageMultipliers])]
    simp [hins, mul_comm]

/-- Witness of C4: the initial form (10 x 10 x 10 cm, no insurance) over 100 km:
380, 570 and 304. -/
theorem calculatePrice_multiplier_witness :
    ∃ t v : ℚ,
      (calculatePrice { initialFormData with packageType := .str "standard" }
        (Num.fin 100)).volumeCharge = Num.fin v ∧
      t = 80 + 2 * 100 + 50 + 1 / 2 * 100 + v ∧
      (calculatePrice { initialFormData with packageType := .str "standard" }
        (Num.fin 100)).totalPrice = Num.fin t ∧
      (calculatePrice { initialFormData with packageType := .str "fragile" }
        (Num.fin 100)).totalPrice = Num.fin (3 / 2 * t) ∧
      (calculatePrice { initialFormData with packageType := .str "document" }
        (Num.fin 100)).totalPrice = Num.fin (4 / 5 * t) :=
  calculatePrice_multiplier initialFormData 100 10 10 10 rfl rfl rfl rfl

/-- C6: for 10 x 10 x 10 cm over 100 km, a fragile insured shipment has
volumeCharge 0, distanceCost 200, fuelSurcharge 50, packageMultiplier 1.5,
insuranceCost 57 and totalPrice 627; a standard uninsured one has
totalPrice 380. -/
theorem calculatePrice_scenarios (fd : FormData) :
    calculatePrice
      { fd with length := .num 10, width := .num 10, height := .num 10,
                packageType := .str "fragile", isInsuranceRequired := .bool true }
      (Num.fin 100) =
      { baseRate := Num.fin 80
        distanceCost := Num.fin 200
        serviceCharge := Num.fin 50
        fuelSurcharge := Num.fin 50
        volumeCharge := Num.fin 0
        packageMultiplier := some (3 / 2)
        insuranceCost := Num.fin 57
        totalPrice := Num.fin 627
        distance := Num.fin 100 } ∧
    (calculatePrice
      { fd with length := .num 10, width := .num 10, height := .num 10,
                packageType := .str "standard", isInsuranceRequired := .bool false }
      (Num.fin 100)).totalPrice = Num.fin 380 := by
  constructor
  · rw [calculatePrice_of_fin
      { fd with length := .num 10, width := .num 10, height := .num 10,
                packageType := .str "fragile", isInsuranceRequired := .bool true }
      100 _ (3 / 2) (volumeCharge_of_fin _ 10 10 10 rfl rfl rfl) (by simp [packageMultipliers])]
    norm_num [toBoolean]
  · rw [calculatePrice_of_fin
      { fd with length := .num 10, width := .num 10, height := .num 10,
                packageType := .str "standard", isInsuranceRequired := .bool false }
      100 _ 1 (volumeCharge_of_fin _ 10 10 10 rfl rfl rfl) (by simp [packageMultipliers])]
    norm_num [toBoolean]

/-- Counterexample to C2: with coordinates selected and package type "express",
a submission whose route is 100 km long raises no error; it stores a breakdown
whose packageMultiplier is undefined and whose totalPrice is NaN. -/
theorem calculatePrice_express_no_error :
    (handleSubmit
      { initialAppState with
        formData :=
          { initialFormData with
            pickupCoords := some { lat := 27, lon := 85 }
            deliveryCoords := some { lat := 28, lon := 84 }
            packageType := .str "express" } }
      (fun _ => RouteReply.meters (Num.fin 100000))).1
      = { formData :=
            { initialFormData with
              pickupCoords := some { lat := 27, lon := 85 }
              deliveryCoords := some { lat := 28, lon := 84 }
              packageType := .str "express" }
          error := ""
          result := some
            { baseRate := Num.fin 80
              distanceCost := Num.fin 200
              serviceCharge := Num.fin 50
              fuelSurcharge := Num.fin 50
              volumeCharge := Num.fin 0
              packageMultiplier := none
              insuranceCost := Num.fin 0
              totalPrice := Num.nan
              distance := Num.fin 100 }
          loading := false } := by
  simp [handleSubmit, getDistance, initialAppState, initialFormData, calculatePrice,
    volumeCharge, volume, toNumber, toBoolean, packageMultipliers, lookupToNumber, Num.add,
    Num.mul, Num.div, Num.gt, BASE_RATE, RATE_PER_KM, SERVICE_CHARGE]
  norm_num

/-- C2, amended: when the package type is none of standard, fragile and
document, calculatePrice still returns a breakdown: no multiplier is found
in the table and none is substituted, the total is NaN, the insurance cost is
NaN with insurance and 0 without, and the other line items are unaffected. -/
theorem calculatePrice_unknown_packageType (fd : FormData) (d : ℚ)
    (hpt : fd.packageType ≠ .str "standard" ∧ fd.packageType ≠ .str "fragile" ∧
      fd.packageType ≠ .str "document") :
    (calculatePrice fd (Num.fin d)).packageMultiplier = none ∧
    (calculatePrice fd (Num.fin d)).totalPrice = Num.nan ∧
    (calculatePrice fd (Num.fin d)).insuranceCost =
      (if toBoolean fd.isInsuranceRequired then Num.nan else Num.fin 0) ∧
    (calculatePrice fd (Num.fin d)).baseRate = Num.fin 80 ∧
    (calculatePrice fd (Num.fin d)).distanceCost = Num.fin (2 * d) ∧
    (calculatePrice fd (Num.fin d)).serviceCharge = Num.fin 50 ∧
    (calculatePrice fd (Num.fin d)).fuelSurcharge = Num.fin (1 / 2 * d) ∧
    (calculatePrice fd (Num.fin d)).volumeCharge = volumeCharge fd ∧
    (calculatePrice fd (Num.fin d)).distance = Num.fin d := by
  have hm : packageMultipliers fd.packageType = none := by
    obtain ⟨h1, h2, h3⟩ := hpt
    cases hv : fd.packageType with
    | bool b => rfl
    | num q => rfl
    | str s =>
      rw [hv] at h1 h2 h3
      have e1 : s ≠ "standard" := fun e => h1 (by rw [e])
      have e2 : s ≠ "fragile" := fun e => h2 (by rw [e])
      have e3 : s ≠ "document" := fun e => h3 (by rw [e])
      simp [packageMultipliers, e1, e2, e3]
  have hmul : ∀ x : Num, x.mul Num.nan = Num.nan := by
    intro x
    cases x <;> rfl
  have hadd : ∀ x : Num, Num.nan.add x = Num.nan := by
    intro x
    cases x <;> rfl
  refine ⟨hm, ?_, ?_, rfl, ?_, rfl, ?_, rfl, rfl⟩
  · simp only [calculatePrice, hm, lookupToNumber, hmul, hadd]
  · simp only [calculatePrice, hm, lookupToNumber, hmul]
    cases toBoolean fd.isInsuranceRequired <;> simp [Num.mul]
  · simp [calculatePrice, Num.mul_fin, RATE_PER_KM, mul_comm]
  · simp [calculatePrice, Num.mul_fin, mul_comm]

/-- Witness of C2 amended: the package type "express". -/
theorem calculatePrice_unknown_packageType_witness :
    (calculatePrice { initialFormData with packageType := .str "express" }
      (Num.fin 100)).packageMultiplier = none ∧
    (calculatePrice { initialFormData with packageType := .str "express" }
      (Num.fin 100)).totalPrice = Num.nan :=
  have h := calculatePrice_unknown_packageType
    { initialFormData with packageType := .str "express" } 100 (by decide)
  ⟨h.1, h.2.1⟩

/-- C7: for a distance of at least 0, dimensions each in [10, 1000], any
insurance flag and a package type among standard, fragile and document,
every amount of the breakdown is a finite number that is at least 0 and the
packageMultiplier is a positive number. -/
theorem calculatePrice_nonneg (fd : FormData) (d l w h : ℚ) (pt : String)
    (hl : toNumber fd.length = Num.fin l) (hw : toNumber fd.width = Num.fin w)
    (hh : toNumber fd.height = Num.fin h) (hp : fd.packageType = .str pt)
    (hpt : pt = "standard" ∨ pt = "fragile" ∨ pt = "document")
    (hd : 0 ≤ d) (hl1 : 10 ≤ l ∧ l ≤ 1000) (hw1 : 10 ≤ w ∧ w ≤ 1000)
    (hh1 : 10 ≤ h ∧ h ≤ 1000) :
    (calculatePrice fd (Num.fin d)).baseRate.NonNeg ∧
    (calculatePrice fd (Num.fin d)).distanceCost.NonNeg ∧
    (calculatePrice fd (Num.fin d)).serviceCharge.NonNeg ∧
    (calculatePrice fd (Num.fin d)).fuelSurcharge.NonNeg ∧
    (calculatePrice fd (Num.fin d)).volumeCharge.NonNeg ∧
    (calculatePrice fd (Num.fin d)).insuranceCost.NonNeg ∧
    (calculatePrice fd (Num.fin d)).totalPrice.NonNeg ∧
    (calculatePrice fd (Num.fin d)).distance.NonNeg ∧
    ∃ m : ℚ, (calculatePrice fd (Num.fin d)).packageMultiplier = some m ∧ 0 < m := by
  have hm0 : (0 : ℚ) < (if pt = "standard" then 1 else if pt = "fragile" then 3 / 2 else 4 / 5) := by
    split_ifs <;> norm_num
  have hv0 : (0 : ℚ) ≤
      (if 1 / 100 < l * w * h / 1000000 then l * w * h / 1000000 * 100 else 0) := by
    have : 0 ≤ l * w * h := by
      have h1 : 0 ≤ l := by linarith [hl1.1]
      have h2 : 0 ≤ w := by linarith [hw1.1]
      have h3 : 0 ≤ h := by linarith [hh1.1]
      positivity
    split_ifs
    · linarith
    · exact le_refl 0
  rw [calculatePrice_of_fin fd d _ _ (volumeCharge_of_fin fd l w h hl hw hh)
    (hp ▸ packageMultipliers_of_known pt hpt)]
  have hs : 0 ≤ (80 + d * 2 + 50 + d * (1 / 2)
      + (if 1 / 100 < l * w * h / 1000000 then l * w * h / 1000000 * 100 else 0))
      * (if pt = "standard" then 1 else if pt = "fragile" then 3 / 2 else 4 / 5) := by
    apply mul_nonneg _ hm0.le
    linarith
  have hi : 0 ≤ (if toBoolean fd.isInsuranceRequired = true
      then (80 + d * 2 + 50 + d * (1 / 2)
        + (if 1 / 100 < l * w * h / 1000000 then l * w * h / 1000000 * 100 else 0))
        * (if pt = "standard" then 1 else if pt = "fragile" then 3 / 2 else 4 / 5) * (1 / 10)
      else 0) := by
    split_ifs <;> linarith
  refine ⟨?_, ?_, ?_, ?_, hv0, hi, ?_, hd, _, rfl, hm0⟩
  · show (0 : ℚ) ≤ 80
    norm_num
  · show (0 : ℚ) ≤ d * 2
    linarith
  · show (0 : ℚ) ≤ 50
    norm_num
  · show (0 : ℚ) ≤ d * (1 / 2)
    linarith
  · exact add_nonneg hs hi

/-- Witness of C7: an insured document of 10 x 1000 x 25 cm over 0 km. -/
theorem calculatePrice_nonneg_witness :
    (calculatePrice
      { initialFormData with
        width := .num 1000, height := .num 25, packageType := .str "document",
        isInsuranceRequired := .bool true } (Num.fin 0)).totalPrice.NonNeg ∧
    ∃ m : ℚ, (calculatePrice
      { initialFormData with
        width := .num 1000, height := .num 25, packageType := .str "document",
        isInsuranceRequired := .bool true } (Num.fin 0)).packageMultiplier = some m ∧ 0 < m :=
  have h := calculatePrice_nonneg
    { initialFormData with
      width := .num 1000, height := .num 25, packageType := .str "document",
      isInsuranceRequired := .bool true }
    0 10 1000 25 "document" rfl rfl rfl rfl (Or.inr (Or.inr rfl)) (le_refl 0)
    (by norm_num) (by norm_num) (by norm_num)
  ⟨h.2.2.2.2.2.2.1, h.2.2.2.2.2.2.2.2⟩

/-! ## Submission -/

/-- C8: when pickupCoords or deliveryCoords is null, a submission sends no
routing request whatever the provider would answer, computes no price, and
ends with result null, loading false and the error
"Please select valid pickup and delivery locations". -/
theorem handleSubmit_missing_coords (s : AppState) (reply : RouteRequest → RouteReply)
    (h : s.formData.pickupCoords = none ∨ s.formData.deliveryCoords = none) :
    getDistance s.formData reply
      = (.error "Please select valid pickup and delivery locations", []) ∧
    handleSubmit s reply
      = ({ formData := s.formData
           error := "Please select valid pickup and delivery locations"
           result := none
           loading := false }, []) := by
  have hg : getDistance s.formData reply
      = (.error "Please select valid pickup and delivery locations", []) := by
    unfold getDistance
    rcases h with h | h
    · rw [h]
    · rw [h]
      cases s.formData.pickupCoords <;> rfl
  refine ⟨hg, ?_⟩
  unfold handleSubmit
  rw [hg]

/-- Witness of C8: the initial state, in which no location is selected, with
a result and an error left over from an earlier submission. -/
theorem handleSubmit_missing_coords_witness :
    handleSubmit
      { initialAppState with
        error := "Error calculating distance: Failed to calculate route distance"
        result := some (calculatePrice initialFormData (Num.fin 3)) }
      (fun _ => RouteReply.meters (Num.fin 100000))
      = ({ formData := initialFormData
           error := "Please select valid pickup and delivery locations"
           result := none
           loading := false }, []) :=
  (handleSubmit_missing_coords
    { initialAppState with
      error := "Error calculating distance: Failed to calculate route distance"
      result := some (calculatePrice initialFormData (Num.fin 3)) }
    (fun _ => RouteReply.meters (Num.fin 100000)) (Or.inl rfl)).2

/-- C9, evaluated at a failing input: after both locations are selected, typing
5 into the Length input (a change event with id "length" and value "5") gives
a reachable form state whose length is the string "5"; a submission then calls
calculatePrice, which reads the length 5, below 10, and returns a quote. -/
theorem handleSubmit_unvalidated_length :
    Reachable
      (handleChange { id := "length", value := "5", checked := false, type := "number" }
        (handleDeliverySelect { formatted := "Pokhara", lat := 28, lon := 84 }
          (handlePickupSelect { formatted := "Kathmandu", lat := 27, lon := 85 }
            initialFormData))) ∧
    handleChange { id := "length", value := "5", checked := false, type := "number" }
        (handleDeliverySelect { formatted := "Pokhara", lat := 28, lon := 84 }
          (handlePickupSelect { formatted := "Kathmandu", lat := 27, lon := 85 }
            initialFormData))
      = lengthFiveForm ∧
    toNumber lengthFiveForm.length = Num.fin 5 ∧ ¬ ((10 : ℚ) ≤ 5) ∧
    handleSubmit { initialAppState with formData := lengthFiveForm }
        (fun _ => RouteReply.meters (Num.fin 100000))
      = ({ formData := lengthFiveForm
           error := ""
           result := some
             { baseRate := Num.fin 80
               distanceCost := Num.fin 200
               serviceCharge := Num.fin 50
               fuelSurcharge := Num.fin 50
               volumeCharge := Num.fin 0
               packageMultiplier := some 1
               insuranceCost := Num.fin 0
               totalPrice := Num.fin 380
               distance := Num.fin 100 }
           loading := false },
         [{ lat1 := 27, lon1 := 85, lat2 := 28, lon2 := 84 }]) := by
  have h5 : toNumber lengthFiveForm.length = Num.fin 5 := by
    simp [lengthFiveForm, toNumber, stringToNumber, isStrWhiteSpace, nonDecimalIntegerLiteral,
      strUnsignedDecimalLiteral, takeDigits, digitValue, exponentPart, digitsToNat]
  have hprice := calculatePrice_of_fin lengthFiveForm (100000 / 1000) _ 1
    (volumeCharge_of_fin lengthFiveForm 5 10 10 h5 rfl rfl) (by
      simp [lengthFiveForm, packageMultipliers])
  refine ⟨Reachable.change _ (Reachable.deliverySelect _ (Reachable.pickupSelect _
    Reachable.init)), ?_, h5, by norm_num, ?_⟩
  · simp [handleChange, setField, handleDeliverySelect, handlePickupSelect, initialFormData,
      lengthFiveForm]
  · have hd : getDistance lengthFiveForm (fun _ => RouteReply.meters (Num.fin 100000))
        = (.ok (Num.fin (100000 / 1000)), [{ lat1 := 27, lon1 := 85, lat2 := 28, lon2 := 84 }]) := by
      simp [getDistance, lengthFiveForm, Num.div_fin]
    simp only [handleSubmit, initialAppState, hd, hprice]
    norm_num [toBoolean, lengthFiveForm]

/-! ## Facts about rounding -/

theorem floor_le_roundHalfEven (y : ℚ) : ⌊y⌋ ≤ roundHalfEven y := by
  unfold roundHalfEven
  split_ifs <;> omega

theorem roundHalfEven_le_floor_add_one (y : ℚ) : roundHalfEven y ≤ ⌊y⌋ + 1 := by
  unfold roundHalfEven
  split_ifs <;> omega

theorem roundHalfEven_of_lt (y : ℚ) (n : ℤ) (h1 : (n : ℚ) - 1 / 2 < y) (h2 : y < n + 1 / 2) :
    roundHalfEven y = n := by
  rcases le_or_lt (n : ℚ) y with h | h
  · have hf : ⌊y⌋ = n := Int.floor_eq_iff.mpr ⟨h, by linarith⟩
    unfold roundHalfEven
    rw [hf, if_pos (by linarith)]
  · have hf : ⌊y⌋ = n - 1 := Int.floor_eq_iff.mpr ⟨by push_cast; linarith, by push_cast; linarith⟩
    unfold roundHalfEven
    rw [hf, if_neg (by push_cast; linarith), if_pos (by push_cast; linarith)]
    ring

theorem roundHalfEven_tie_even (y : ℚ) (n : ℤ) (h : y = n + 1 / 2) (hn : n % 2 = 0) :
    roundHalfEven y = n := by
  have hf : ⌊y⌋ = n := Int.floor_eq_iff.mpr ⟨by linarith, by linarith⟩
  unfold roundHalfEven
  rw [hf, if_neg (by linarith), if_neg (by linarith), if_pos hn]

theorem roundHalfEven_intCast (n : ℤ) : roundHalfEven (n : ℚ) = n :=
  roundHalfEven_of_lt _ n (by linarith) (by linarith)

theorem roundHalfEven_mono {a b : ℚ} (h : a ≤ b) : roundHalfEven a ≤ roundHalfEven b := by
  have hfl : ⌊a⌋ ≤ ⌊b⌋ := Int.floor_mono h
  rcases lt_or_eq_of_le hfl with hlt | heq
  · calc roundHalfEven a ≤ ⌊a⌋ + 1 := roundHalfEven_le_floor_add_one a
      _ ≤ ⌊b⌋ := hlt
      _ ≤ roundHalfEven b := floor_le_roundHalfEven b
  · unfold roundHalfEven
    rw [heq]
    have hab : a - (⌊b⌋ : ℚ) ≤ b - ⌊b⌋ := by linarith
    split_ifs <;> first | omega | (exfalso; linarith)

theorem two_zpow_pos (k : ℤ) : (0 : ℚ) < 2 ^ k := zpow_pos (by norm_num) k

theorem log_eq_of_bounds (x : ℚ) (k : ℤ) (hx : 0 < x) (hlo : (2 : ℚ) ^ k ≤ x)
    (hhi : x < (2 : ℚ) ^ (k + 1)) : Int.log 2 |x| = k := by
  rw [abs_of_pos hx]
  apply le_antisymm
  · have := (Int.lt_zpow_iff_log_lt (b := 2) (by norm_num) hx (x := k + 1)).mp (by
      simpa using hhi)
    omega
  · exact (Int.zpow_le_iff_le_log (b := 2) (by norm_num) hx).mp (by simpa using hlo)

theorem round64_of_bounds (x : ℚ) (e n : ℤ) (hx : 0 < x) (hlo : (2 : ℚ) ^ (e + 52) ≤ x)
    (hhi : x < (2 : ℚ) ^ (e + 53)) (he : -1074 ≤ e) (hn : roundHalfEven (x / 2 ^ e) = n) :
    round64 x = n * 2 ^ e := by
  have hlog : Int.log 2 |x| = e + 52 :=
    log_eq_of_bounds x (e + 52) hx hlo (by rw [show e + 52 + 1 = e + 53 by ring]; exact hhi)
  have hexp : exponent64 x = e := by
    unfold exponent64
    rw [hlog]
    omega
  unfold round64
  rw [hexp, hn]

theorem round64_zero : round64 0 = 0 := by
  simp [round64, roundHalfEven]

theorem round64_nonneg {x : ℚ} (hx : 0 ≤ x) : 0 ≤ round64 x := by
  unfold round64
  have h0 : (0 : ℤ) ≤ roundHalfEven (x / 2 ^ exponent64 x) := by
    have := roundHalfEven_mono (a := ((0 : ℤ) : ℚ)) (b := x / 2 ^ exponent64 x) (by
      push_cast
      exact div_nonneg hx (two_zpow_pos _).le)
    rwa [roundHalfEven_intCast] at this
  exact mul_nonneg (by exact_mod_cast h0) (two_zpow_pos _).le

theorem exponent64_mono {x y : ℚ} (hx : 0 < x) (h : x ≤ y) : exponent64 x ≤ exponent64 y := by
  unfold exponent64
  have := Int.log_mono_right (b := 2) (by rwa [abs_of_pos hx] : (0 : ℚ) < |x|)
    (by rwa [abs_of_pos hx, abs_of_pos (hx.trans_le h)] : |x| ≤ |y|)
  omega

theorem round64_mono {x y : ℚ} (hx : 0 ≤ x) (h : x ≤ y) : round64 x ≤ round64 y := by
  rcases eq_or_lt_of_le hx with h0 | hpos
  · rw [← h0, round64_zero]
    exact round64_nonneg (hx.trans h)
  have hy : 0 < y := hpos.trans_le h
  have hexp := exponent64_mono hpos h
  rcases eq_or_lt_of_le hexp with heq | hlt
  · unfold round64
    rw [heq]
    apply mul_le_mul_of_nonneg_right _ (two_zpow_pos _).le
    exact_mod_cast roundHalfEven_mono (div_le_div_of_nonneg_right h (two_zpow_pos _).le)
  · -- the two numbers lie on either side of the power of two `2 ^ (exponent64 y + 52)`
    have hxe : Int.log 2 |x| - 52 ≤ exponent64 x := le_max_left _ _
    have hye : exponent64 y = Int.log 2 |y| - 52 := by
      unfold exponent64 at hlt ⊢
      have : (-1074 : ℤ) ≤ max (Int.log 2 |x| - 52) (-1074) := le_max_right _ _
      omega
    have hxlt : x < (2 : ℚ) ^ (exponent64 y + 52) := by
      have h1 := Int.lt_zpow_succ_log_self (b := 2) (by norm_num) |x|
      rw [abs_of_pos hpos] at h1
      have h2 : ((2 : ℕ) : ℚ) ^ (Int.log 2 x + 1) ≤ (2 : ℚ) ^ (exponent64 y + 52) := by
        push_cast
        apply zpow_le_zpow_right₀ (by norm_num)
        rw [abs_of_pos hpos] at hxe
        omega
      exact h1.trans_le h2
    have hyge : (2 : ℚ) ^ (exponent64 y + 52) ≤ y := by
      have h1 := Int.zpow_log_le_self (b := 2) (by norm_num) (by rwa [abs_of_pos hy] : (0 : ℚ) < |y|)
      rw [abs_of_pos hy] at h1
      rw [hye, abs_of_pos hy]
      simpa using h1
    set ex := exponent64 x
    set ey := exponent64 y
    obtain ⟨k, hk⟩ : ∃ k : ℕ, ey + 52 - ex = k := ⟨(ey + 52 - ex).toNat, by omega⟩
    have hpow : (2 : ℚ) ^ (ey + 52) = ((2 ^ k : ℤ) : ℚ) * 2 ^ ex := by
      push_cast
      rw [← zpow_natCast, ← zpow_add₀ (by norm_num : (2 : ℚ) ≠ 0)]
      congr 1
      omega
    have hpow2 : (2 : ℚ) ^ (ey + 52) = ((2 ^ 52 : ℤ) : ℚ) * 2 ^ ey := by
      rw [zpow_add₀ (by norm_num : (2 : ℚ) ≠ 0), mul_comm]
      norm_num
    have hA : round64 x ≤ (2 : ℚ) ^ (ey + 52) := by
      show (roundHalfEven (x / 2 ^ ex) : ℚ) * 2 ^ ex ≤ _
      rw [hpow]
      apply mul_le_mul_of_nonneg_right _ (two_zpow_pos _).le
      have : x / 2 ^ ex ≤ ((2 ^ k : ℤ) : ℚ) := by
        rw [div_le_iff₀ (two_zpow_pos _), ← hpow]
        exact hxlt.le
      have := roundHalfEven_mono this
      rw [roundHalfEven_intCast] at this
      exact_mod_cast this
    have hB : (2 : ℚ) ^ (ey + 52) ≤ round64 y := by
      show _ ≤ (roundHalfEven (y / 2 ^ ey) : ℚ) * 2 ^ ey
      rw [hpow2]
      apply mul_le_mul_of_nonneg_right _ (two_zpow_pos _).le
      have : ((2 ^ 52 : ℤ) : ℚ) ≤ y / 2 ^ ey := by
        rw [le_div_iff₀ (two_zpow_pos _), ← hpow2]
        exact hyge
      have := roundHalfEven_mono this
      rw [roundHalfEven_intCast] at this
      exact_mod_cast this
    exact hA.trans hB


theorem roundHalfEven_tie_odd (y : ℚ) (n : ℤ) (h : y = n + 1 / 2) (hn : n % 2 = 1) :
    roundHalfEven y = n + 1 := by
  have hf : ⌊y⌋ = n := Int.floor_eq_iff.mpr ⟨by linarith, by linarith⟩
  unfold roundHalfEven
  rw [hf, if_neg (by linarith), if_neg (by linarith), if_neg (by omega)]

theorem roundHalfEven_neg (y : ℚ) : roundHalfEven (-y) = -roundHalfEven y := by
  have hfl : (⌊y⌋ : ℚ) ≤ y := Int.floor_le y
  have hfl2 : y < ⌊y⌋ + 1 := Int.lt_floor_add_one y
  rcases lt_trichotomy (y - ⌊y⌋) (1 / 2) with h | h | h
  · rw [roundHalfEven_of_lt y ⌊y⌋ (by linarith) (by linarith),
      roundHalfEven_of_lt (-y) (-⌊y⌋) (by push_cast; linarith) (by push_cast; linarith)]
  · rcases Int.emod_two_eq_zero_or_one ⌊y⌋ with he | ho
    · rw [roundHalfEven_tie_even y ⌊y⌋ (by linarith) he,
        roundHalfEven_tie_odd (-y) (-⌊y⌋ - 1) (by push_cast; linarith) (by omega)]
      ring
    · rw [roundHalfEven_tie_odd y ⌊y⌋ (by linarith) ho,
        roundHalfEven_tie_even (-y) (-⌊y⌋ - 1) (by push_cast; linarith) (by omega)]
      ring
  · rw [roundHalfEven_of_lt y (⌊y⌋ + 1) (by push_cast; linarith) (by push_cast; linarith),
      roundHalfEven_of_lt (-y) (-(⌊y⌋ + 1)) (by push_cast; linarith) (by push_cast; linarith)]

theorem round64_neg (x : ℚ) : round64 (-x) = -round64 x := by
  unfold round64 exponent64
  rw [abs_neg, neg_div, roundHalfEven_neg]
  push_cast
  ring

theorem exponent64_ge (x : ℚ) : -1074 ≤ exponent64 x := le_max_right _ _

/-- A number `n * 2 ^ e` with a significand below `2 ^ 53` is a double. -/
theorem round64_of_significand (n e : ℤ) (hn0 : 0 < n) (hn : n < 2 ^ 53) (he : -1074 ≤ e) :
    round64 (n * 2 ^ e) = n * 2 ^ e := by
  have hr : (0 : ℚ) < n * 2 ^ e := mul_pos (by exact_mod_cast hn0) (two_zpow_pos e)
  have hlt : (n : ℚ) * 2 ^ e < 2 ^ (e + 53) := by
    rw [show e + 53 = 53 + e by ring, zpow_add₀ (by norm_num : (2 : ℚ) ≠ 0)]
    apply mul_lt_mul_of_pos_right _ (two_zpow_pos e)
    have h : ((n : ℤ) : ℚ) < ((2 ^ 53 : ℤ) : ℚ) := by exact_mod_cast hn
    norm_num at h ⊢
    exact h
  have hlog : Int.log 2 |(n : ℚ) * 2 ^ e| < e + 53 := by
    rw [abs_of_pos hr]
    exact (Int.lt_zpow_iff_log_lt (b := 2) (by norm_num) hr).mp (by simpa using hlt)
  have hexp : exponent64 (n * 2 ^ e) ≤ e := by
    unfold exponent64
    omega
  obtain ⟨k, hk⟩ : ∃ k : ℕ, e - exponent64 (n * 2 ^ e) = k :=
    ⟨(e - exponent64 (n * 2 ^ e)).toNat, by omega⟩
  have hdiv : (n : ℚ) * 2 ^ e / 2 ^ exponent64 (n * 2 ^ e) = ((n * 2 ^ k : ℤ) : ℚ) := by
    rw [mul_div_assoc, ← zpow_sub₀ (by norm_num : (2 : ℚ) ≠ 0), hk]
    push_cast
    rw [zpow_natCast]
  have hmul : ((n * 2 ^ k : ℤ) : ℚ) * 2 ^ exponent64 (n * 2 ^ e) = n * 2 ^ e := by
    push_cast
    rw [mul_assoc, ← zpow_natCast, ← zpow_add₀ (by norm_num : (2 : ℚ) ≠ 0), ← hk]
    congr 2
    ring
  unfold round64
  rw [hdiv, roundHalfEven_intCast]
  exact hmul

theorem round64_idem_of_pos {x : ℚ} (hx : 0 < x) : round64 (round64 x) = round64 x := by
  have hlt : x / 2 ^ exponent64 x < ((2 ^ 53 : ℤ) : ℚ) := by
    rw [div_lt_iff₀ (two_zpow_pos _)]
    have h1 := Int.lt_zpow_succ_log_self (b := 2) (by norm_num) |x|
    rw [abs_of_pos hx] at h1
    have h2 : ((2 : ℕ) : ℚ) ^ (Int.log 2 x + 1) ≤ ((2 ^ 53 : ℤ) : ℚ) * 2 ^ exponent64 x := by
      have : ((2 ^ 53 : ℤ) : ℚ) * 2 ^ exponent64 x = (2 : ℚ) ^ (53 + exponent64 x) := by
        rw [zpow_add₀ (by norm_num : (2 : ℚ) ≠ 0)]
        norm_num
      rw [this]
      push_cast
      apply zpow_le_zpow_right₀ (by norm_num)
      have : Int.log 2 |x| - 52 ≤ exponent64 x := le_max_left _ _
      rw [abs_of_pos hx] at this
      omega
    exact h1.trans_le h2
  have hn1 : roundHalfEven (x / 2 ^ exponent64 x) ≤ 2 ^ 53 := by
    have := roundHalfEven_mono hlt.le
    rwa [roundHalfEven_intCast] at this
  have hn0 : 0 ≤ roundHalfEven (x / 2 ^ exponent64 x) := by
    have := roundHalfEven_mono (a := ((0 : ℤ) : ℚ)) (b := x / 2 ^ exponent64 x) (by
      push_cast
      exact div_nonneg hx.le (two_zpow_pos _).le)
    rwa [roundHalfEven_intCast] at this
  have hform : round64 x = (roundHalfEven (x / 2 ^ exponent64 x) : ℚ) * 2 ^ exponent64 x := rfl
  rcases eq_or_lt_of_le hn0 with h0 | hpos
  · rw [hform, ← h0]
    simp [round64_zero]
  rcases eq_or_lt_of_le hn1 with htop | hlt53
  · have : round64 x = ((2 ^ 52 : ℤ) : ℚ) * 2 ^ (exponent64 x + 1) := by
      rw [hform, htop, zpow_add₀ (by norm_num : (2 : ℚ) ≠ 0)]
      norm_num
      ring
    rw [this]
    exact round64_of_significand (2 ^ 52) (exponent64 x + 1) (by norm_num) (by norm_num)
      (by have := exponent64_ge x; omega)
  · rw [hform]
    exact round64_of_significand _ _ hpos hlt53 (exponent64_ge x)

theorem round64_idem (x : ℚ) : round64 (round64 x) = round64 x := by
  rcases lt_trichotomy x 0 with h | h | h
  · have := round64_idem_of_pos (neg_pos.mpr h)
    rw [round64_neg, round64_neg] at this
    exact neg_injective this
  · rw [h, round64_zero, round64_zero]
  · exact round64_idem_of_pos h

/-- Evaluation of `round64` at a positive number between two powers of two
that is not half-way between two doubles. -/
theorem round64_eq_of (x r : ℚ) (e n : ℤ) (hx : 0 < x) (hlo : (2 : ℚ) ^ (e + 52) ≤ x)
    (hhi : x < (2 : ℚ) ^ (e + 53)) (he : -1074 ≤ e) (h1 : (n : ℚ) - 1 / 2 < x / 2 ^ e)
    (h2 : x / 2 ^ e < n + 1 / 2) (hr : r = n * 2 ^ e) : round64 x = r := by
  rw [hr]
  exact round64_of_bounds x e n hx hlo hhi he (roundHalfEven_of_lt _ _ h1 h2)

/-- Evaluation of `round64` at a positive number half-way between two doubles. -/
theorem round64_eq_of_tie (x r : ℚ) (e n : ℤ) (hx : 0 < x) (hlo : (2 : ℚ) ^ (e + 52) ≤ x)
    (hhi : x < (2 : ℚ) ^ (e + 53)) (he : -1074 ≤ e) (h1 : x / 2 ^ e = n + 1 / 2)
    (hn : n % 2 = 0) (hr : r = n * 2 ^ e) : round64 x = r := by
  rw [hr]
  exact round64_of_bounds x e n hx hlo hhi he (roundHalfEven_tie_even _ _ h1 hn)

theorem F64.ofRat_eq_of (x r : ℚ) (hr : round64 x = r) (hfin : |r| < 2 ^ 1024) :
    F64.ofRat x = F64.fin r := by
  unfold F64.ofRat
  rw [hr, if_pos hfin]

theorem round64_neg_of_neg {x : ℚ} (hx : x < 0) : round64 x ≤ 0 := by
  have := round64_nonneg (neg_pos.mpr hx).le
  rw [round64_neg] at this
  linarith

theorem F64.ofRat_round64 (x : ℚ) : F64.ofRat (round64 x) = F64.ofRat x := by
  unfold F64.ofRat
  rw [round64_idem]
  by_cases hfin : |round64 x| < 2 ^ 1024
  · rw [if_pos hfin, if_pos hfin]
  · rw [if_neg hfin, if_neg hfin]
    congr 1
    have hne : round64 x ≠ 0 := by
      intro h0
      apply hfin
      rw [h0]
      norm_num
    rcases lt_or_le x 0 with hx | hx
    · have h1 : round64 x < 0 := lt_of_le_of_ne (round64_neg_of_neg hx) hne
      simp [hx, h1]
    · have h1 : ¬ round64 x < 0 := not_lt.mpr (round64_nonneg hx)
      simp [not_lt.mpr hx, h1]

/-- Adding the double 0 to the result of a multiplication leaves it unchanged. -/
theorem F64.mul_add_zero (a b : F64) : (a.mul b).add (F64.fin 0) = a.mul b := by
  have key : ∀ y : ℚ, (F64.ofRat y).add (F64.fin 0) = F64.ofRat y := by
    intro y
    by_cases hfin : |round64 y| < 2 ^ 1024
    · have h1 : F64.ofRat y = F64.fin (round64 y) := by
        unfold F64.ofRat
        rw [if_pos hfin]
      rw [h1]
      show F64.ofRat (round64 y + 0) = _
      rw [add_zero, F64.ofRat_round64, h1]
    · have h1 : F64.ofRat y = F64.inf (decide (y < 0)) := by
        unfold F64.ofRat
        rw [if_neg hfin]
      rw [h1]
      rfl
  cases a with
  | fin x =>
    cases b with
    | fin y => exact key (x * y)
    | inf s =>
      show (if x = 0 then F64.nan else F64.inf _).add (F64.fin 0) = if x = 0 then _ else _
      split_ifs <;> rfl
    | nan => rfl
  | inf s =>
    cases b with
    | fin y =>
      show (if y = 0 then F64.nan else F64.inf _).add (F64.fin 0) = if y = 0 then _ else _
      split_ifs <;> rfl
    | inf t => rfl
    | nan => rfl
  | nan => cases b <;> rfl

theorem F64.ofRat_cases {x : ℚ} (hx : 0 ≤ x) :
    (F64.ofRat x = F64.fin (round64 x) ∧ |round64 x| < 2 ^ 1024) ∨
      (F64.ofRat x = F64.inf false ∧ ¬ |round64 x| < 2 ^ 1024) := by
  unfold F64.ofRat
  by_cases hfin : |round64 x| < 2 ^ 1024
  · left
    rw [if_pos hfin]
    exact ⟨rfl, hfin⟩
  · right
    rw [if_neg hfin]
    simp [not_lt.mpr hx, hfin]

theorem F64.ofRat_nonneg {x : ℚ} (hx : 0 ≤ x) : (F64.ofRat x).NonNeg := by
  rcases F64.ofRat_cases hx with ⟨h, _⟩ | ⟨h, _⟩
  · rw [h]
    exact round64_nonneg hx
  · rw [h]
    rfl

theorem F64.ofRat_le_ofRat {x y : ℚ} (hx : 0 ≤ x) (h : x ≤ y) :
    (F64.ofRat x).Le (F64.ofRat y) := by
  have hmono := round64_mono hx h
  have hrx := round64_nonneg hx
  have hry := round64_nonneg (hx.trans h)
  rcases F64.ofRat_cases hx with ⟨h1, f1⟩ | ⟨h1, f1⟩ <;>
    rcases F64.ofRat_cases (hx.trans h) with ⟨h2, f2⟩ | ⟨h2, f2⟩
  · rw [h1, h2]
    exact hmono
  · rw [h1, h2]
    rfl
  · exfalso
    apply f1
    rw [abs_of_nonneg hrx]
    rw [abs_of_nonneg hry] at f2
    exact lt_of_le_of_lt hmono f2
  · rw [h1, h2]
    exact Or.inr rfl

theorem F64.nonneg_of_le {a b : F64} (ha : a.NonNeg) (h : a.Le b) : b.NonNeg := by
  cases a <;> cases b <;> simp_all [F64.NonNeg, F64.Le]
  linarith

theorem F64.zero_le_of_nonneg {a : F64} (ha : a.NonNeg) : (F64.fin 0).Le a := by
  cases a <;> simp_all [F64.NonNeg, F64.Le]

theorem F64.nonneg_add {a b : F64} (ha : a.NonNeg) (hb : b.NonNeg) : (a.add b).NonNeg := by
  cases a with
  | fin x =>
    cases b with
    | fin y => exact F64.ofRat_nonneg (add_nonneg ha hb)
    | inf t => exact hb
    | nan => exact hb
  | inf s =>
    cases b with
    | fin y => exact ha
    | inf t =>
      have hs : s = false := ha
      have ht : t = false := hb
      subst hs ht
      rfl
    | nan => exact hb
  | nan => exact absurd ha id

theorem F64.le_add {a a' b b' : F64} (ha : a.NonNeg) (hb : b.NonNeg) (h1 : a.Le a')
    (h2 : b.Le b') : (a.add b).Le (a'.add b') := by
  have ha' := F64.nonneg_of_le ha h1
  have hb' := F64.nonneg_of_le hb h2
  have hsum' := F64.nonneg_add ha' hb'
  cases a with
  | nan => exact absurd ha id
  | inf s =>
    have hs : s = false := ha
    subst hs
    cases a' with
    | nan => exact absurd ha' id
    | fin x' => simp [F64.Le] at h1
    | inf s' =>
      have hs' : s' = false := ha'
      subst hs'
      cases b <;> cases b' <;> simp_all [F64.NonNeg, F64.Le, F64.add]
  | fin x =>
    cases b with
    | nan => exact absurd hb id
    | inf t =>
      have ht : t = false := hb
      subst ht
      cases b' with
      | nan => exact absurd hb' id
      | fin y' => simp [F64.Le] at h2
      | inf t' =>
        have ht' : t' = false := hb'
        subst ht'
        cases a' <;> simp_all [F64.NonNeg, F64.Le, F64.add]
    | fin y =>
      cases a' with
      | nan => exact absurd ha' id
      | inf s' =>
        have hs' : s' = false := ha'
        subst hs'
        have hout : ((F64.inf false).add b') = F64.inf false := by
          cases b' with
          | nan => exact absurd hb' id
          | fin y' => rfl
          | inf t' =>
            have ht' : t' = false := hb'
            subst ht'
            rfl
        rw [hout]
        rcases F64.ofRat_cases (add_nonneg ha hb : 0 ≤ x + y) with ⟨h, _⟩ | ⟨h, _⟩
        · show (F64.ofRat (x + y)).Le _
          rw [h]
          rfl
        · show (F64.ofRat (x + y)).Le _
          rw [h]
          exact Or.inr rfl
      | fin x' =>
        cases b' with
        | nan => exact absurd hb' id
        | inf t' =>
          have ht' : t' = false := hb'
          subst ht'
          rcases F64.ofRat_cases (add_nonneg ha hb : 0 ≤ x + y) with ⟨h, _⟩ | ⟨h, _⟩
          · show (F64.ofRat (x + y)).Le (F64.inf false)
            rw [h]
            rfl
          · show (F64.ofRat (x + y)).Le (F64.inf false)
            rw [h]
            exact Or.inr rfl
        | fin y' =>
          exact F64.ofRat_le_ofRat (add_nonneg ha hb) (add_le_add h1 h2)

theorem F64.nonneg_mul {a : F64} {c : ℚ} (ha : a.NonNeg) (hc : 0 < c) :
    (a.mul (F64.fin c)).NonNeg := by
  cases a with
  | nan => exact absurd ha id
  | fin x => exact F64.ofRat_nonneg (mul_nonneg ha hc.le)
  | inf s =>
    have hs : s = false := ha
    subst hs
    simp [F64.mul, hc.ne', F64.NonNeg, not_lt.mpr hc.le]

theorem F64.le_mul {a a' : F64} {c c' : ℚ} (ha : a.NonNeg) (h : a.Le a') (hc : 0 < c)
    (hcc : c ≤ c') : (a.mul (F64.fin c)).Le (a'.mul (F64.fin c')) := by
  have ha' := F64.nonneg_of_le ha h
  have hc' : 0 < c' := hc.trans_le hcc
  cases a' with
  | nan => exact absurd ha' id
  | inf s' =>
    have hs' : s' = false := ha'
    subst hs'
    have hout : (F64.inf false).mul (F64.fin c') = F64.inf false := by
      simp [F64.mul, hc'.ne', not_lt.mpr hc'.le]
    rw [hout]
    have hnn := F64.nonneg_mul ha hc
    generalize a.mul (F64.fin c) = z at hnn
    cases z <;> simp_all [F64.NonNeg, F64.Le]
  | fin x' =>
    cases a with
    | nan => exact absurd ha id
    | inf s => simp_all [F64.NonNeg, F64.Le]
    | fin x =>
      exact F64.ofRat_le_ofRat (mul_nonneg ha hc.le) (mul_le_mul h hcc hc.le ha')

theorem F64.nonneg_div {a : F64} {c : ℚ} (ha : a.NonNeg) (hc : 0 < c) :
    (a.div (F64.fin c)).NonNeg := by
  cases a with
  | nan => exact absurd ha id
  | fin x =>
    simp only [F64.div, hc.ne', if_false]
    exact F64.ofRat_nonneg (div_nonneg ha hc.le)
  | inf s =>
    have hs : s = false := ha
    subst hs
    simp [F64.div, hc.ne', F64.NonNeg, not_lt.mpr hc.le]

theorem F64.le_div {a a' : F64} {c : ℚ} (ha : a.NonNeg) (h : a.Le a') (hc : 0 < c) :
    (a.div (F64.fin c)).Le (a'.div (F64.fin c)) := by
  have ha' := F64.nonneg_of_le ha h
  cases a' with
  | nan => exact absurd ha' id
  | inf s' =>
    have hs' : s' = false := ha'
    subst hs'
    have hout : (F64.inf false).div (F64.fin c) = F64.inf false := by
      simp [F64.div, hc.ne', not_lt.mpr hc.le]
    rw [hout]
    have hnn := F64.nonneg_div ha hc
    generalize a.div (F64.fin c) = z at hnn
    cases z <;> simp_all [F64.NonNeg, F64.Le]
  | fin x' =>
    cases a with
    | nan => exact absurd ha id
    | inf s => simp_all [F64.NonNeg, F64.Le]
    | fin x =>
      simp only [F64.div, hc.ne', if_false]
      exact F64.ofRat_le_ofRat (div_nonneg ha hc.le) (div_le_div_of_nonneg_right h hc.le)

theorem F64.gt_of_le {a a' : F64} {c : ℚ} (h : a.Le a') (hg : a.gt (F64.fin c) = true) :
    a'.gt (F64.fin c) = true := by
  cases a with
  | nan => simp [F64.gt] at hg
  | inf s =>
    cases s with
    | true => simp [F64.gt] at hg
    | false =>
      cases a' with
      | nan => exact absurd h id
      | fin x' => simp [F64.Le] at h
      | inf s' =>
        cases s' with
        | true => simp [F64.Le] at h
        | false => rfl
  | fin x =>
    cases a' with
    | nan => exact absurd h id
    | inf s' =>
      have : s' = false := h
      subst this
      rfl
    | fin x' =>
      simp only [F64.gt, decide_eq_true_eq] at hg ⊢
      exact lt_of_lt_of_le hg h

theorem F64.add_ofRat (a b : ℚ) : (F64.fin a).add (F64.fin b) = F64.ofRat (a + b) := rfl

theorem F64.mul_ofRat (a b : ℚ) : (F64.fin a).mul (F64.fin b) = F64.ofRat (a * b) := rfl

theorem F64.div_ofRat (a b : ℚ) (hb : b ≠ 0) :
    (F64.fin a).div (F64.fin b) = F64.ofRat (a / b) := by
  simp [F64.div, hb]

theorem F64.gt_decide (a b : ℚ) : (F64.fin a).gt (F64.fin b) = decide (b < a) := rfl

/-- Evaluation of a rounded operation whose exact result is positive and not
half-way between two doubles. -/
theorem F64.ofRat_eval (x r : ℚ) (e n : ℤ) (hx : 0 < x) (hlo : (2 : ℚ) ^ (e + 52) ≤ x)
    (hhi : x < (2 : ℚ) ^ (e + 53)) (he : -1074 ≤ e) (h1 : (n : ℚ) - 1 / 2 < x / 2 ^ e)
    (h2 : x / 2 ^ e < n + 1 / 2) (hr : r = n * 2 ^ e) (h0 : 0 ≤ r) (hfin : r < 2 ^ 1024) :
    F64.ofRat x = F64.fin r :=
  F64.ofRat_eq_of x r (round64_eq_of x r e n hx hlo hhi he h1 h2 hr) (by
    rw [abs_of_nonneg h0]
    exact hfin)

/-- Evaluation of a rounded operation whose exact result is positive and
half-way between two doubles. -/
theorem F64.ofRat_eval_tie (x r : ℚ) (e n : ℤ) (hx : 0 < x) (hlo : (2 : ℚ) ^ (e + 52) ≤ x)
    (hhi : x < (2 : ℚ) ^ (e + 53)) (he : -1074 ≤ e) (h1 : x / 2 ^ e = n + 1 / 2)
    (hn : n % 2 = 0) (hr : r = n * 2 ^ e) (h0 : 0 ≤ r) (hfin : r < 2 ^ 1024) :
    F64.ofRat x = F64.fin r :=
  F64.ofRat_eq_of x r (round64_eq_of_tie x r e n hx hlo hhi he h1 hn hr) (by
    rw [abs_of_nonneg h0]
    exact hfin)

/-- The volume charge in terms of the three coerced dimensions. -/
theorem volumeCharge64_of (g : FormData) (l w h : F64) (hl : toNumber64 g.length = l)
    (hw : toNumber64 g.width = w) (hh : toNumber64 g.height = h) :
    volumeCharge64 g =
      if (((l.mul w).mul h).div (F64.fin 1000000)).gt (F64.fin (round64 (1 / 100))) = true
      then (((l.mul w).mul h).div (F64.fin 1000000)).mul (F64.fin 100)
      else F64.fin 0 := by
  subst hl hw hh
  rfl

/-- The total in terms of the volume charge, the multiplier and the flag. -/
theorem calculatePrice64_total_of (g : FormData) (d vc : F64) (m : ℚ) (ins : Bool)
    (hvc : volumeCharge64 g = vc) (hm : packageMultipliers64 g.packageType = some m)
    (hi : toBoolean g.isInsuranceRequired = ins) :
    (calculatePrice64 g d).totalPrice =
      ((((((F64.fin 80).add (d.mul (F64.fin 2))).add (F64.fin 50)).add
        (d.mul (F64.fin (1 / 2)))).add vc).mul (F64.fin m)).add
      (if ins = true
        then ((((((F64.fin 80).add (d.mul (F64.fin 2))).add (F64.fin 50)).add
          (d.mul (F64.fin (1 / 2)))).add vc).mul (F64.fin m)).mul (F64.fin (round64 (1 / 10)))
        else F64.fin 0) := by
  subst hvc hi
  simp only [calculatePrice64, hm, lookupToNumber64, BASE_RATE, RATE_PER_KM, SERVICE_CHARGE]

/-! ## The volume charge (double precision) -/

/-- C3: with volume = length * width * height / 1000000 as the code computes it
(in double precision, `0.01` being the double nearest to it), the volumeCharge
of the breakdown is volume * 100, a positive amount, when volume > 0.01, and
is 0 otherwise, that is when volume <= 0.01 (or is NaN); at 10 x 10 x 100 cm,
where the volume is exactly the double 0.01, the charge is 0, and at
10 x 10 x 101 cm it is the double 1.01. -/
theorem calculatePrice_volumeCharge (fd : FormData) (distance l w h : F64)
    (hl : toNumber64 fd.length = l) (hw : toNumber64 fd.width = w)
    (hh : toNumber64 fd.height = h) :
    ((((l.mul w).mul h).div (F64.fin 1000000)).gt (F64.fin (round64 (1 / 100))) = true →
      (calculatePrice64 fd distance).volumeCharge
        = (((l.mul w).mul h).div (F64.fin 1000000)).mul (F64.fin 100) ∧
      (calculatePrice64 fd distance).volumeCharge.Pos) ∧
    ((((l.mul w).mul h).div (F64.fin 1000000)).gt (F64.fin (round64 (1 / 100))) = false →
      (calculatePrice64 fd distance).volumeCharge = F64.fin 0) ∧
    round64 (1 / 100) = 5764607523034235 / 576460752303423488 ∧
    (calculatePrice64 { fd with length := .num 10, width := .num 10, height := .num 100 }
      distance).volumeCharge = F64.fin 0 ∧
    (calculatePrice64 { fd with length := .num 10, width := .num 10, height := .num 101 }
      distance).volumeCharge = F64.fin (4548635623644201 / 4503599627370496) := by
  have hvc : ∀ g : FormData, (calculatePrice64 g distance).volumeCharge =
      if ((((toNumber64 g.length).mul (toNumber64 g.width)).mul (toNumber64 g.height)).div
        (F64.fin 1000000)).gt (F64.fin (round64 (1 / 100)))
      then ((((toNumber64 g.length).mul (toNumber64 g.width)).mul (toNumber64 g.height)).div
        (F64.fin 1000000)).mul (F64.fin 100)
      else F64.fin 0 := fun _ => rfl
  have hc01 : round64 (1 / 100) = (5764607523034235 / 576460752303423488) :=
    round64_eq_of _ (5764607523034235 / 576460752303423488) (-59) 5764607523034235
      (by norm_num) (by norm_num) (by norm_num) (by norm_num) (by norm_num)
      (by norm_num) (by norm_num)
  have a1 : (F64.fin 10).mul (F64.fin 10)
      = F64.fin 100 := by
    rw [F64.mul_ofRat]
    exact F64.ofRat_eval _ 100 (-46) 7036874417766400
      (by norm_num) (by norm_num) (by norm_num) (by norm_num) (by norm_num)
      (by norm_num) (by norm_num) (by norm_num) (by norm_num)
  have a2 : (F64.fin 100).mul (F64.fin 100)
      = F64.fin 10000 := by
    rw [F64.mul_ofRat]
    exact F64.ofRat_eval _ 10000 (-39) 5497558138880000
      (by norm_num) (by norm_num) (by norm_num) (by norm_num) (by norm_num)
      (by norm_num) (by norm_num) (by norm_num) (by norm_num)
  have a3 : (F64.fin 10000).div (F64.fin 1000000)
      = F64.fin (5764607523034235 / 576460752303423488) := by
    rw [F64.div_ofRat _ _ (by norm_num)]
    exact F64.ofRat_eval _ (5764607523034235 / 576460752303423488) (-59) 5764607523034235
      (by norm_num) (by norm_num) (by norm_num) (by norm_num) (by norm_num)
      (by norm_num) (by norm_num) (by norm_num) (by norm_num)
  have b2 : (F64.fin 100).mul (F64.fin 101)
      = F64.fin 10100 := by
    rw [F64.mul_ofRat]
    exact F64.ofRat_eval _ 10100 (-39) 5552533720268800
      (by norm_num) (by norm_num) (by norm_num) (by norm_num) (by norm_num)
      (by norm_num) (by norm_num) (by norm_num) (by norm_num)
  have b3 : (F64.fin 10100).div (F64.fin 1000000)
      = F64.fin (5822253598264577 / 576460752303423488) := by
    rw [F64.div_ofRat _ _ (by norm_num)]
    exact F64.ofRat_eval _ (5822253598264577 / 576460752303423488) (-59) 5822253598264577
      (by norm_num) (by norm_num) (by norm_num) (by norm_num) (by norm_num)
      (by norm_num) (by norm_num) (by norm_num) (by norm_num)
  have b4 : (F64.fin (5822253598264577 / 576460752303423488)).mul (F64.fin 100)
      = F64.fin (4548635623644201 / 4503599627370496) := by
    rw [F64.mul_ofRat]
    exact F64.ofRat_eval _ (4548635623644201 / 4503599627370496) (-52) 4548635623644201
      (by norm_num) (by norm_num) (by norm_num) (by norm_num) (by norm_num)
      (by norm_num) (by norm_num) (by norm_num) (by norm_num)
  refine ⟨fun hg => ?_, fun hg => ?_, hc01, ?_, ?_⟩
  · rw [hvc fd, hl, hw, hh, if_pos hg]
    refine ⟨rfl, ?_⟩
    generalize ((l.mul w).mul h).div (F64.fin 1000000) = vol at hg
    cases vol with
    | nan => simp [F64.gt] at hg
    | inf s =>
      cases s with
      | true => simp [F64.gt] at hg
      | false => simp [F64.mul, F64.Pos]
    | fin v =>
      rw [F64.gt_decide, hc01, decide_eq_true_eq] at hg
      have hv : (1 : ℚ) / 2 ≤ v * 100 := by linarith
      have hhalf : round64 (1 / 2) = 1 / 2 := by
        have := round64_of_significand 1 (-1) (by norm_num) (by norm_num) (by norm_num)
        norm_num at this
        norm_num
        exact this
      have hr : (1 : ℚ) / 2 ≤ round64 (v * 100) := by
        rw [← hhalf]
        exact round64_mono (by norm_num) hv
      rw [F64.mul_ofRat]
      rcases F64.ofRat_cases (by linarith : (0 : ℚ) ≤ v * 100) with ⟨e, _⟩ | ⟨e, _⟩
      · rw [e]
        show (0 : ℚ) < round64 (v * 100)
        linarith
      · rw [e]
        rfl
  · rw [hvc fd, hl, hw, hh, hg]
    rfl
  · rw [hvc]
    show (if ((((F64.fin 10).mul (F64.fin 10)).mul (F64.fin 100)).div (F64.fin 1000000)).gt
        (F64.fin (round64 (1 / 100))) = true then _ else _) = _
    rw [a1, a2, a3, hc01, F64.gt_decide, if_neg (by norm_num)]
  · rw [hvc]
    show (if ((((F64.fin 10).mul (F64.fin 10)).mul (F64.fin 101)).div (F64.fin 1000000)).gt
        (F64.fin (round64 (1 / 100))) = true
      then ((((F64.fin 10).mul (F64.fin 10)).mul (F64.fin 101)).div (F64.fin 1000000)).mul
        (F64.fin 100) else _) = _
    rw [a1, b2, b3, hc01, F64.gt_decide, if_pos (by norm_num), b4]

/-- Witness of C3: the dimensions "0.1", "0.1" and "1000000" typed into the form.
The exact volume is 0.01, the computed one is the next double above the
double 0.01, and the charge is the next double above 1. -/
theorem calculatePrice_volumeCharge_witness :
    (calculatePrice64
      { initialFormData with
        length := .str "0.1", width := .str "0.1", height := .str "1000000" }
      (F64.fin 100)).volumeCharge = F64.fin (4503599627370497 / 4503599627370496) := by
  have s1 : stringToNumber "0.1" = Num.fin (1 / 10) := by
    simp [stringToNumber, isStrWhiteSpace, nonDecimalIntegerLiteral,
      strUnsignedDecimalLiteral, takeDigits, digitValue, exponentPart, digitsToNat]
  have s2 : stringToNumber "1000000" = Num.fin 1000000 := by
    simp [stringToNumber, isStrWhiteSpace, nonDecimalIntegerLiteral,
      strUnsignedDecimalLiteral, takeDigits, digitValue, exponentPart, digitsToNat]
  have hc1 : round64 (1 / 10) = (3602879701896397 / 36028797018963968) :=
    round64_eq_of _ (3602879701896397 / 36028797018963968) (-56) 7205759403792794
      (by norm_num) (by norm_num) (by norm_num) (by norm_num) (by norm_num)
      (by norm_num) (by norm_num)
  have n1 : toNumber64 (.str "0.1") = F64.fin (3602879701896397 / 36028797018963968) := by
    have e : stringToNumber64 "0.1" = F64.ofRat (1 / 10) := by
      simp [stringToNumber64, s1, isStrWhiteSpace]
    show stringToNumber64 "0.1" = _
    rw [e]
    exact F64.ofRat_eq_of _ _ hc1 (by rw [abs_of_nonneg (by norm_num)]; norm_num)
  have n2 : toNumber64 (.str "1000000") = F64.fin 1000000 := by
    have e : stringToNumber64 "1000000" = F64.ofRat 1000000 := by
      simp [stringToNumber64, s2, isStrWhiteSpace]
    show stringToNumber64 "1000000" = _
    rw [e]
    exact F64.ofRat_eval _ 1000000 (-33) 8589934592000000
      (by norm_num) (by norm_num) (by norm_num) (by norm_num) (by norm_num)
      (by norm_num) (by norm_num) (by norm_num) (by norm_num)
  have w1 : (F64.fin (3602879701896397 / 36028797018963968)).mul (F64.fin (3602879701896397 / 36028797018963968))
      = F64.fin (1441151880758559 / 144115188075855872) := by
    rw [F64.mul_ofRat]
    exact F64.ofRat_eval _ (1441151880758559 / 144115188075855872) (-59) 5764607523034236
      (by norm_num) (by norm_num) (by norm_num) (by norm_num) (by norm_num)
      (by norm_num) (by norm_num) (by norm_num) (by norm_num)
  have w2 : (F64.fin (1441151880758559 / 144115188075855872)).mul (F64.fin 1000000)
      = F64.fin (5497558138880001 / 549755813888) := by
    rw [F64.mul_ofRat]
    exact F64.ofRat_eval _ (5497558138880001 / 549755813888) (-39) 5497558138880001
      (by norm_num) (by norm_num) (by norm_num) (by norm_num) (by norm_num)
      (by norm_num) (by norm_num) (by norm_num) (by norm_num)
  have w3 : (F64.fin (5497558138880001 / 549755813888)).div (F64.fin 1000000)
      = F64.fin (1441151880758559 / 144115188075855872) := by
    rw [F64.div_ofRat _ _ (by norm_num)]
    exact F64.ofRat_eval _ (1441151880758559 / 144115188075855872) (-59) 5764607523034236
      (by norm_num) (by norm_num) (by norm_num) (by norm_num) (by norm_num)
      (by norm_num) (by norm_num) (by norm_num) (by norm_num)
  have w4 : (F64.fin (1441151880758559 / 144115188075855872)).mul (F64.fin 100)
      = F64.fin (4503599627370497 / 4503599627370496) := by
    rw [F64.mul_ofRat]
    exact F64.ofRat_eval _ (4503599627370497 / 4503599627370496) (-52) 4503599627370497
      (by norm_num) (by norm_num) (by norm_num) (by norm_num) (by norm_num)
      (by norm_num) (by norm_num) (by norm_num) (by norm_num)
  have hg : ((((F64.fin (3602879701896397 / 36028797018963968)).mul
      (F64.fin (3602879701896397 / 36028797018963968))).mul (F64.fin 1000000)).div
      (F64.fin 1000000)).gt (F64.fin (round64 (1 / 100))) = true := by
    rw [w1, w2, w3, F64.gt_decide,
      (calculatePrice_volumeCharge initialFormData F64.nan _ _ _ rfl rfl rfl).2.2.1]
    norm_num
  have h := ((calculatePrice_volumeCharge
    { initialFormData with
      length := .str "0.1", width := .str "0.1", height := .str "1000000" }
    (F64.fin 100) _ _ _ n1 n1 n2).1 hg).1
  rw [h, w1, w2, w3, w4]

/-! ## Insurance (double precision) -/

/-- Counterexample to C5: for a document of 10 x 10 x 10 cm over 100 km the code
computes the total 304 without insurance and, with insurance,
304 + 304 * 0.1 = 334.4 (the double nearest to it), which is neither
1.1 * 304 in exact arithmetic nor the double product 1.1 * 304
(334.40000000000003). -/
theorem calculatePrice_insurance_not_eleven_tenths :
    (calculatePrice64
      { initialFormData with
      length := .num 10, width := .num 10, height := .num 10,
      packageType := .str "document", isInsuranceRequired := .bool false }
      (F64.fin 100)).totalPrice = F64.fin 304 ∧
    (calculatePrice64
      { initialFormData with
      length := .num 10, width := .num 10, height := .num 10,
      packageType := .str "document", isInsuranceRequired := .bool true }
      (F64.fin 100)).totalPrice = F64.fin (2941413506626355 / 8796093022208) ∧
    ((2941413506626355 / 8796093022208) : ℚ) ≠ 11 / 10 * 304 ∧
    (F64.fin (round64 (11 / 10))).mul (F64.fin 304) = F64.fin (5882827013252711 / 17592186044416) ∧
    ((5882827013252711 / 17592186044416) : ℚ) ≠ (2941413506626355 / 8796093022208) := by
  have nc01 : round64 (1 / 100) = (5764607523034235 / 576460752303423488) :=
    round64_eq_of _ (5764607523034235 / 576460752303423488) (-59) 5764607523034235
      (by norm_num) (by norm_num) (by norm_num) (by norm_num) (by norm_num)
      (by norm_num) (by norm_num)
  have nc1 : round64 (1 / 10) = (3602879701896397 / 36028797018963968) :=
    round64_eq_of _ (3602879701896397 / 36028797018963968) (-56) 7205759403792794
      (by norm_num) (by norm_num) (by norm_num) (by norm_num) (by norm_num)
      (by norm_num) (by norm_num)
  have nm1 : (F64.fin 10).mul (F64.fin 10)
      = F64.fin 100 := by
    rw [F64.mul_ofRat]
    exact F64.ofRat_eval _ 100 (-46) 7036874417766400
      (by norm_num) (by norm_num) (by norm_num) (by norm_num) (by norm_num)
      (by norm_num) (by norm_num) (by norm_num) (by norm_num)
  have nm2 : (F64.fin 100).mul (F64.fin 10)
      = F64.fin 1000 := by
    rw [F64.mul_ofRat]
    exact F64.ofRat_eval _ 1000 (-43) 8796093022208000
      (by norm_num) (by norm_num) (by norm_num) (by norm_num) (by norm_num)
      (by norm_num) (by norm_num) (by norm_num) (by norm_num)
  have nm3 : (F64.fin 1000).div (F64.fin 1000000)
      = F64.fin (1152921504606847 / 1152921504606846976) := by
    rw [F64.div_ofRat _ _ (by norm_num)]
    exact F64.ofRat_eval _ (1152921504606847 / 1152921504606846976) (-62) 4611686018427388
      (by norm_num) (by norm_num) (by norm_num) (by norm_num) (by norm_num)
      (by norm_num) (by norm_num) (by norm_num) (by norm_num)
  have nvc : volumeCharge64
      { initialFormData with
      length := .num 10, width := .num 10, height := .num 10,
      packageType := .str "document", isInsuranceRequired := .bool false } = F64.fin 0 := by
    rw [volumeCharge64_of
      { initialFormData with
      length := .num 10, width := .num 10, height := .num 10,
      packageType := .str "document", isInsuranceRequired := .bool false }
      (F64.fin 10) (F64.fin 10) (F64.fin 10) rfl rfl rfl,
      nm1, nm2, nm3, nc01, F64.gt_decide, if_neg (by norm_num)]
  have ndc : (F64.fin 100).mul (F64.fin 2)
      = F64.fin 200 := by
    rw [F64.mul_ofRat]
    exact F64.ofRat_eval _ 200 (-45) 7036874417766400
      (by norm_num) (by norm_num) (by norm_num) (by norm_num) (by norm_num)
      (by norm_num) (by norm_num) (by norm_num) (by norm_num)
  have ns1 : (F64.fin 80).add (F64.fin 200)
      = F64.fin 280 := by
    rw [F64.add_ofRat]
    exact F64.ofRat_eval _ 280 (-44) 4925812092436480
      (by norm_num) (by norm_num) (by norm_num) (by norm_num) (by norm_num)
      (by norm_num) (by norm_num) (by norm_num) (by norm_num)
  have ns2 : (F64.fin 280).add (F64.fin 50)
      = F64.fin 330 := by
    rw [F64.add_ofRat]
    exact F64.ofRat_eval _ 330 (-44) 5805421394657280
      (by norm_num) (by norm_num) (by norm_num) (by norm_num) (by norm_num)
      (by norm_num) (by norm_num) (by norm_num) (by norm_num)
  have nfs : (F64.fin 100).mul (F64.fin (1 / 2))
      = F64.fin 50 := by
    rw [F64.mul_ofRat]
    exact F64.ofRat_eval _ 50 (-47) 7036874417766400
      (by norm_num) (by norm_num) (by norm_num) (by norm_num) (by norm_num)
      (by norm_num) (by norm_num) (by norm_num) (by norm_num)
  have ns3 : (F64.fin 330).add (F64.fin 50)
      = F64.fin 380 := by
    rw [F64.add_ofRat]
    exact F64.ofRat_eval _ 380 (-44) 6685030696878080
      (by norm_num) (by norm_num) (by norm_num) (by norm_num) (by norm_num)
      (by norm_num) (by norm_num) (by norm_num) (by norm_num)
  have ns4 : (F64.fin 380).add (F64.fin 0)
      = F64.fin 380 := by
    rw [F64.add_ofRat]
    exact F64.ofRat_eval _ 380 (-44) 6685030696878080
      (by norm_num) (by norm_num) (by norm_num) (by norm_num) (by norm_num)
      (by norm_num) (by norm_num) (by norm_num) (by norm_num)
  have nc08 : round64 (4 / 5) = (3602879701896397 / 4503599627370496) :=
    round64_eq_of _ (3602879701896397 / 4503599627370496) (-53) 7205759403792794
      (by norm_num) (by norm_num) (by norm_num) (by norm_num) (by norm_num)
      (by norm_num) (by norm_num)
  have npre : (F64.fin 380).mul (F64.fin (3602879701896397 / 4503599627370496))
      = F64.fin 304 := by
    rw [F64.mul_ofRat]
    exact F64.ofRat_eval _ 304 (-44) 5348024557502464
      (by norm_num) (by norm_num) (by norm_num) (by norm_num) (by norm_num)
      (by norm_num) (by norm_num) (by norm_num) (by norm_num)
  have ntot : (F64.fin 304).add (F64.fin 0)
      = F64.fin 304 := by
    rw [F64.add_ofRat]
    exact F64.ofRat_eval _ 304 (-44) 5348024557502464
      (by norm_num) (by norm_num) (by norm_num) (by norm_num) (by norm_num)
      (by norm_num) (by norm_num) (by norm_num) (by norm_num)
  have ntotal : (calculatePrice64
      { initialFormData with
      length := .num 10, width := .num 10, height := .num 10,
      packageType := .str "document", isInsuranceRequired := .bool false }
      (F64.fin 100)).totalPrice = F64.fin 304 := by
    rw [calculatePrice64_total_of _ (F64.fin 100) (F64.fin 0) (round64 (4 / 5)) false nvc
      (by simp [packageMultipliers64]) rfl,
      ndc, ns1, ns2, nfs, ns3, ns4, nc08, npre, if_neg (by decide), ntot]
  have ic01 : round64 (1 / 100) = (5764607523034235 / 576460752303423488) :=
    round64_eq_of _ (5764607523034235 / 576460752303423488) (-59) 5764607523034235
      (by norm_num) (by norm_num) (by norm_num) (by norm_num) (by norm_num)
      (by norm_num) (by norm_num)
  have ic1 : round64 (1 / 10) = (3602879701896397 / 36028797018963968) :=
    round64_eq_of _ (3602879701896397 / 36028797018963968) (-56) 7205759403792794
      (by norm_num) (by norm_num) (by norm_num) (by norm_num) (by norm_num)
      (by norm_num) (by norm_num)
  have im1 : (F64.fin 10).mul (F64.fin 10)
      = F64.fin 100 := by
    rw [F64.mul_ofRat]
    exact F64.ofRat_eval _ 100 (-46) 7036874417766400
      (by norm_num) (by norm_num) (by norm_num) (by norm_num) (by norm_num)
      (by norm_num) (by norm_num) (by norm_num) (by norm_num)
  have im2 : (F64.fin 100).mul (F64.fin 10)
      = F64.fin 1000 := by
    rw [F64.mul_ofRat]
    exact F64.ofRat_eval _ 1000 (-43) 8796093022208000
      (by norm_num) (by norm_num) (by norm_num) (by norm_num) (by norm_num)
      (by norm_num) (by norm_num) (by norm_num) (by norm_num)
  have im3 : (F64.fin 1000).div (F64.fin 1000000)
      = F64.fin (1152921504606847 / 1152921504606846976) := by
    rw [F64.div_ofRat _ _ (by norm_num)]
    exact F64.ofRat_eval _ (1152921504606847 / 1152921504606846976) (-62) 4611686018427388
      (by norm_num) (by norm_num) (by norm_num) (by norm_num) (by norm_num)
      (by norm_num) (by norm_num) (by norm_num) (by norm_num)
  have ivc : volumeCharge64
      { initialFormData with
      length := .num 10, width := .num 10, height := .num 10,
      packageType := .str "document", isInsuranceRequired := .bool true } = F64.fin 0 := by
    rw [volumeCharge64_of
      { initialFormData with
      length := .num 10, width := .num 10, height := .num 10,
      packageType := .str "document", isInsuranceRequired := .bool true }
      (F64.fin 10) (F64.fin 10) (F64.fin 10) rfl rfl rfl,
      im1, im2, im3, ic01, F64.gt_decide, if_neg (by norm_num)]
  have idc : (F64.fin 100).mul (F64.fin 2)
      = F64.fin 200 := by
    rw [F64.mul_ofRat]
    exact F64.ofRat_eval _ 200 (-45) 7036874417766400
      (by norm_num) (by norm_num) (by norm_num) (by norm_num) (by norm_num)
      (by norm_num) (by norm_num) (by norm_num) (by norm_num)
  have is1 : (F64.fin 80).add (F64.fin 200)
      = F64.fin 280 := by
    rw [F64.add_ofRat]
    exact F64.ofRat_eval _ 280 (-44) 4925812092436480
      (by norm_num) (by norm_num) (by norm_num) (by norm_num) (by norm_num)
      (by norm_num) (by norm_num) (by norm_num) (by norm_num)
  have is2 : (F64.fin 280).add (F64.fin 50)
      = F64.fin 330 := by
    rw [F64.add_ofRat]
    exact F64.ofRat_eval _ 330 (-44) 5805421394657280
      (by norm_num) (by norm_num) (by norm_num) (by norm_num) (by norm_num)
      (by norm_num) (by norm_num) (by norm_num) (by norm_num)
  have ifs : (F64.fin 100).mul (F64.fin (1 / 2))
      = F64.fin 50 := by
    rw [F64.mul_ofRat]
    exact F64.ofRat_eval _ 50 (-47) 7036874417766400
      (by norm_num) (by norm_num) (by norm_num) (by norm_num) (by norm_num)
      (by norm_num) (by norm_num) (by norm_num) (by norm_num)
  have is3 : (F64.fin 330).add (F64.fin 50)
      = F64.fin 380 := by
    rw [F64.add_ofRat]
    exact F64.ofRat_eval _ 380 (-44) 6685030696878080
      (by norm_num) (by norm_num) (by norm_num) (by norm_num) (by norm_num)
      (by norm_num) (by norm_num) (by norm_num) (by norm_num)
  have is4 : (F64.fin 380).add (F64.fin 0)
      = F64.fin 380 := by
    rw [F64.add_ofRat]
    exact F64.ofRat_eval _ 380 (-44) 6685030696878080
      (by norm_num) (by norm_num) (by norm_num) (by norm_num) (by norm_num)
      (by norm_num) (by norm_num) (by norm_num) (by norm_num)
  have ic08 : round64 (4 / 5) = (3602879701896397 / 4503599627370496) :=
    round64_eq_of _ (3602879701896397 / 4503599627370496) (-53) 7205759403792794
      (by norm_num) (by norm_num) (by norm_num) (by norm_num) (by norm_num)
      (by norm_num) (by norm_num)
  have ipre : (F64.fin 380).mul (F64.fin (3602879701896397 / 4503599627370496))
      = F64.fin 304 := by
    rw [F64.mul_ofRat]
    exact F64.ofRat_eval _ 304 (-44) 5348024557502464
      (by norm_num) (by norm_num) (by norm_num) (by norm_num) (by norm_num)
      (by norm_num) (by norm_num) (by norm_num) (by norm_num)
  have iic : (F64.fin 304).mul (F64.fin (3602879701896397 / 36028797018963968))
      = F64.fin (8556839292003943 / 281474976710656) := by
    rw [F64.mul_ofRat]
    exact F64.ofRat_eval _ (8556839292003943 / 281474976710656) (-48) 8556839292003943
      (by norm_num) (by norm_num) (by norm_num) (by norm_num) (by norm_num)
      (by norm_num) (by norm_num) (by norm_num) (by norm_num)
  have itot : (F64.fin 304).add (F64.fin (8556839292003943 / 281474976710656))
      = F64.fin (2941413506626355 / 8796093022208) := by
    rw [F64.add_ofRat]
    exact F64.ofRat_eval _ (2941413506626355 / 8796093022208) (-44) 5882827013252710
      (by norm_num) (by norm_num) (by norm_num) (by norm_num) (by norm_num)
      (by norm_num) (by norm_num) (by norm_num) (by norm_num)
  have itotal : (calculatePrice64
      { initialFormData with
      length := .num 10, width := .num 10, height := .num 10,
      packageType := .str "document", isInsuranceRequired := .bool true }
      (F64.fin 100)).totalPrice = F64.fin (2941413506626355 / 8796093022208) := by
    rw [calculatePrice64_total_of _ (F64.fin 100) (F64.fin 0) (round64 (4 / 5)) true ivc
      (by simp [packageMultipliers64]) rfl,
      idc, is1, is2, ifs, is3, is4, ic08, ipre, if_pos rfl, ic1, iic, itot]
  have c11 : round64 (11 / 10) = (2476979795053773 / 2251799813685248) :=
    round64_eq_of _ (2476979795053773 / 2251799813685248) (-52) 4953959590107546
      (by norm_num) (by norm_num) (by norm_num) (by norm_num) (by norm_num)
      (by norm_num) (by norm_num)
  have hy : (F64.fin (2476979795053773 / 2251799813685248)).mul (F64.fin 304)
      = F64.fin (5882827013252711 / 17592186044416) := by
    rw [F64.mul_ofRat]
    exact F64.ofRat_eval _ (5882827013252711 / 17592186044416) (-44) 5882827013252711
      (by norm_num) (by norm_num) (by norm_num) (by norm_num) (by norm_num)
      (by norm_num) (by norm_num) (by norm_num) (by norm_num)
  refine ⟨ntotal, itotal, by norm_num, ?_, by norm_num⟩
  rw [c11, hy]

/-- C5, amended: in the double arithmetic of the code, the total with insurance
is t + t * 0.1, each operation rounded and 0.1 being the double nearest to
it, where t is the total without insurance on otherwise identical inputs;
for a fragile parcel of 20 x 30 x 40 cm over 100 km, t is the double
573.5999999999999 and the insured total is 630.9599999999999. -/
theorem calculatePrice_insurance (fd : FormData) (distance : F64) :
    (calculatePrice64 { fd with isInsuranceRequired := .bool true } distance).totalPrice =
      ((calculatePrice64 { fd with isInsuranceRequired := .bool false } distance).totalPrice).add
        (((calculatePrice64 { fd with isInsuranceRequired := .bool false }
          distance).totalPrice).mul (F64.fin (round64 (1 / 10)))) ∧
    round64 (1 / 10) = 3602879701896397 / 36028797018963968 ∧
    (calculatePrice64
      { fd with
      length := .num 20, width := .num 30, height := .num 40,
      packageType := .str "fragile", isInsuranceRequired := .bool false }
      (F64.fin 100)).totalPrice = F64.fin (1261359739384627 / 2199023255552) ∧
    (calculatePrice64
      { fd with
      length := .num 20, width := .num 30, height := .num 40,
      packageType := .str "fragile", isInsuranceRequired := .bool true }
      (F64.fin 100)).totalPrice = F64.fin (5549982853292359 / 8796093022208) := by
  have ac01 : round64 (1 / 100) = (5764607523034235 / 576460752303423488) :=
    round64_eq_of _ (5764607523034235 / 576460752303423488) (-59) 5764607523034235
      (by norm_num) (by norm_num) (by norm_num) (by norm_num) (by norm_num)
      (by norm_num) (by norm_num)
  have ac1 : round64 (1 / 10) = (3602879701896397 / 36028797018963968) :=
    round64_eq_of _ (3602879701896397 / 36028797018963968) (-56) 7205759403792794
      (by norm_num) (by norm_num) (by norm_num) (by norm_num) (by norm_num)
      (by norm_num) (by norm_num)
  have am1 : (F64.fin 20).mul (F64.fin 30)
      = F64.fin 600 := by
    rw [F64.mul_ofRat]
    exact F64.ofRat_eval _ 600 (-43) 5277655813324800
      (by norm_num) (by norm_num) (by norm_num) (by norm_num) (by norm_num)
      (by norm_num) (by norm_num) (by norm_num) (by norm_num)
  have am2 : (F64.fin 600).mul (F64.fin 40)
      = F64.fin 24000 := by
    rw [F64.mul_ofRat]
    exact F64.ofRat_eval _ 24000 (-38) 6597069766656000
      (by norm_num) (by norm_num) (by norm_num) (by norm_num) (by norm_num)
      (by norm_num) (by norm_num) (by norm_num) (by norm_num)
  have am3 : (F64.fin 24000).div (F64.fin 1000000)
      = F64.fin (3458764513820541 / 144115188075855872) := by
    rw [F64.div_ofRat _ _ (by norm_num)]
    exact F64.ofRat_eval _ (3458764513820541 / 144115188075855872) (-58) 6917529027641082
      (by norm_num) (by norm_num) (by norm_num) (by norm_num) (by norm_num)
      (by norm_num) (by norm_num) (by norm_num) (by norm_num)
  have am4 : (F64.fin (3458764513820541 / 144115188075855872)).mul (F64.fin 100)
      = F64.fin (5404319552844595 / 2251799813685248) := by
    rw [F64.mul_ofRat]
    exact F64.ofRat_eval _ (5404319552844595 / 2251799813685248) (-51) 5404319552844595
      (by norm_num) (by norm_num) (by norm_num) (by norm_num) (by norm_num)
      (by norm_num) (by norm_num) (by norm_num) (by norm_num)
  have avc : volumeCharge64
      { fd with
      length := .num 20, width := .num 30, height := .num 40,
      packageType := .str "fragile", isInsuranceRequired := .bool false } = F64.fin (5404319552844595 / 2251799813685248) := by
    rw [volumeCharge64_of
      { fd with
      length := .num 20, width := .num 30, height := .num 40,
      packageType := .str "fragile", isInsuranceRequired := .bool false }
      (F64.fin 20) (F64.fin 30) (F64.fin 40) rfl rfl rfl,
      am1, am2, am3, ac01, F64.gt_decide, if_pos (by norm_num), am4]
  have adc : (F64.fin 100).mul (F64.fin 2)
      = F64.fin 200 := by
    rw [F64.mul_ofRat]
    exact F64.ofRat_eval _ 200 (-45) 7036874417766400
      (by norm_num) (by norm_num) (by norm_num) (by norm_num) (by norm_num)
      (by norm_num) (by norm_num) (by norm_num) (by norm_num)
  have as1 : (F64.fin 80).add (F64.fin 200)
      = F64.fin 280 := by
    rw [F64.add_ofRat]
    exact F64.ofRat_eval _ 280 (-44) 4925812092436480
      (by norm_num) (by norm_num) (by norm_num) (by norm_num) (by norm_num)
      (by norm_num) (by norm_num) (by norm_num) (by norm_num)
  have as2 : (F64.fin 280).add (F64.fin 50)
      = F64.fin 330 := by
    rw [F64.add_ofRat]
    exact F64.ofRat_eval _ 330 (-44) 5805421394657280
      (by norm_num) (by norm_num) (by norm_num) (by norm_num) (by norm_num)
      (by norm_num) (by norm_num) (by norm_num) (by norm_num)
  have afs : (F64.fin 100).mul (F64.fin (1 / 2))
      = F64.fin 50 := by
    rw [F64.mul_ofRat]
    exact F64.ofRat_eval _ 50 (-47) 7036874417766400
      (by norm_num) (by norm_num) (by norm_num) (by norm_num) (by norm_num)
      (by norm_num) (by norm_num) (by norm_num) (by norm_num)
  have as3 : (F64.fin 330).add (F64.fin 50)
      = F64.fin 380 := by
    rw [F64.add_ofRat]
    exact F64.ofRat_eval _ 380 (-44) 6685030696878080
      (by norm_num) (by norm_num) (by norm_num) (by norm_num) (by norm_num)
      (by norm_num) (by norm_num) (by norm_num) (by norm_num)
  have as4 : (F64.fin 380).add (F64.fin (5404319552844595 / 2251799813685248))
      = F64.fin (3363625971692339 / 8796093022208) := by
    rw [F64.add_ofRat]
    exact F64.ofRat_eval _ (3363625971692339 / 8796093022208) (-44) 6727251943384678
      (by norm_num) (by norm_num) (by norm_num) (by norm_num) (by norm_num)
      (by norm_num) (by norm_num) (by norm_num) (by norm_num)
  have apre : (F64.fin (3363625971692339 / 8796093022208)).mul (F64.fin (3 / 2))
      = F64.fin (1261359739384627 / 2199023255552) := by
    rw [F64.mul_ofRat]
    exact F64.ofRat_eval_tie _ (1261359739384627 / 2199023255552) (-43) 5045438957538508
      (by norm_num) (by norm_num) (by norm_num) (by norm_num) (by norm_num)
      (by decide) (by norm_num) (by norm_num) (by norm_num)
  have atot : (F64.fin (1261359739384627 / 2199023255552)).add (F64.fin 0)
      = F64.fin (1261359739384627 / 2199023255552) := by
    rw [F64.add_ofRat]
    exact F64.ofRat_eval _ (1261359739384627 / 2199023255552) (-43) 5045438957538508
      (by norm_num) (by norm_num) (by norm_num) (by norm_num) (by norm_num)
      (by norm_num) (by norm_num) (by norm_num) (by norm_num)
  have atotal : (calculatePrice64
      { fd with
      length := .num 20, width := .num 30, height := .num 40,
      packageType := .str "fragile", isInsuranceRequired := .bool false }
      (F64.fin 100)).totalPrice = F64.fin (1261359739384627 / 2199023255552) := by
    rw [calculatePrice64_total_of _ (F64.fin 100) (F64.fin (5404319552844595 / 2251799813685248)) (3 / 2) false avc
      (by simp [packageMultipliers64]) rfl,
      adc, as1, as2, afs, as3, as4, apre, if_neg (by decide), atot]
  have bc01 : round64 (1 / 100) = (5764607523034235 / 576460752303423488) :=
    round64_eq_of _ (5764607523034235 / 576460752303423488) (-59) 5764607523034235
      (by norm_num) (by norm_num) (by norm_num) (by norm_num) (by norm_num)
      (by norm_num) (by norm_num)
  have bc1 : round64 (1 / 10) = (3602879701896397 / 36028797018963968) :=
    round64_eq_of _ (3602879701896397 / 36028797018963968) (-56) 7205759403792794
      (by norm_num) (by norm_num) (by norm_num) (by norm_num) (by norm_num)
      (by norm_num) (by norm_num)
  have bm1 : (F64.fin 20).mul (F64.fin 30)
      = F64.fin 600 := by
    rw [F64.mul_ofRat]
    exact F64.ofRat_eval _ 600 (-43) 5277655813324800
      (by norm_num) (by norm_num) (by norm_num) (by norm_num) (by norm_num)
      (by norm_num) (by norm_num) (by norm_num) (by norm_num)
  have bm2 : (F64.fin 600).mul (F64.fin 40)
      = F64.fin 24000 := by
    rw [F64.mul_ofRat]
    exact F64.ofRat_eval _ 24000 (-38) 6597069766656000
      (by norm_num) (by norm_num) (by norm_num) (by norm_num) (by norm_num)
      (by norm_num) (by norm_num) (by norm_num) (by norm_num)
  have bm3 : (F64.fin 24000).div (F64.fin 1000000)
      = F64.fin (3458764513820541 / 144115188075855872) := by
    rw [F64.div_ofRat _ _ (by norm_num)]
    exact F64.ofRat_eval _ (3458764513820541 / 144115188075855872) (-58) 6917529027641082
      (by norm_num) (by norm_num) (by norm_num) (by norm_num) (by norm_num)
      (by norm_num) (by norm_num) (by norm_num) (by norm_num)
  have bm4 : (F64.fin (3458764513820541 / 144115188075855872)).mul (F64.fin 100)
      = F64.fin (5404319552844595 / 2251799813685248) := by
    rw [F64.mul_ofRat]
    exact F64.ofRat_eval _ (5404319552844595 / 2251799813685248) (-51) 5404319552844595
      (by norm_num) (by norm_num) (by norm_num) (by norm_num) (by norm_num)
      (by norm_num) (by norm_num) (by norm_num) (by norm_num)
  have bvc : volumeCharge64
      { fd with
      length := .num 20, width := .num 30, height := .num 40,
      packageType := .str "fragile", isInsuranceRequired := .bool true } = F64.fin (5404319552844595 / 2251799813685248) := by
    rw [volumeCharge64_of
      { fd with
      length := .num 20, width := .num 30, height := .num 40,
      packageType := .str "fragile", isInsuranceRequired := .bool true }
      (F64.fin 20) (F64.fin 30) (F64.fin 40) rfl rfl rfl,
      bm1, bm2, bm3, bc01, F64.gt_decide, if_pos (by norm_num), bm4]
  have bdc : (F64.fin 100).mul (F64.fin 2)
      = F64.fin 200 := by
    rw [F64.mul_ofRat]
    exact F64.ofRat_eval _ 200 (-45) 7036874417766400
      (by norm_num) (by norm_num) (by norm_num) (by norm_num) (by norm_num)
      (by norm_num) (by norm_num) (by norm_num) (by norm_num)
  have bs1 : (F64.fin 80).add (F64.fin 200)
      = F64.fin 280 := by
    rw [F64.add_ofRat]
    exact F64.ofRat_eval _ 280 (-44) 4925812092436480
      (by norm_num) (by norm_num) (by norm_num) (by norm_num) (by norm_num)
      (by norm_num) (by norm_num) (by norm_num) (by norm_num)
  have bs2 : (F64.fin 280).add (F64.fin 50)
      = F64.fin 330 := by
    rw [F64.add_ofRat]
    exact F64.ofRat_eval _ 330 (-44) 5805421394657280
      (by norm_num) (by norm_num) (by norm_num) (by norm_num) (by norm_num)
      (by norm_num) (by norm_num) (by norm_num) (by norm_num)
  have bfs : (F64.fin 100).mul (F64.fin (1 / 2))
      = F64.fin 50 := by
    rw [F64.mul_ofRat]
    exact F64.ofRat_eval _ 50 (-47) 7036874417766400
      (by norm_num) (by norm_num) (by norm_num) (by norm_num) (by norm_num)
      (by norm_num) (by norm_num) (by norm_num) (by norm_num)
  have bs3 : (F64.fin 330).add (F64.fin 50)
      = F64.fin 380 := by
    rw [F64.add_ofRat]
    exact F64.ofRat_eval _ 380 (-44) 6685030696878080
      (by norm_num) (by norm_num) (by norm_num) (by norm_num) (by norm_num)
      (by norm_num) (by norm_num) (by norm_num) (by norm_num)
  have bs4 : (F64.fin 380).add (F64.fin (5404319552844595 / 2251799813685248))
      = F64.fin (3363625971692339 / 8796093022208) := by
    rw [F64.add_ofRat]
    exact F64.ofRat_eval _ (3363625971692339 / 8796093022208) (-44) 6727251943384678
      (by norm_num) (by norm_num) (by norm_num) (by norm_num) (by norm_num)
      (by norm_num) (by norm_num) (by norm_num) (by norm_num)
  have bpre : (F64.fin (3363625971692339 / 8796093022208)).mul (F64.fin (3 / 2))
      = F64.fin (1261359739384627 / 2199023255552) := by
    rw [F64.mul_ofRat]
    exact F64.ofRat_eval_tie _ (1261359739384627 / 2199023255552) (-43) 5045438957538508
      (by norm_num) (by norm_num) (by norm_num) (by norm_num) (by norm_num)
      (by decide) (by norm_num) (by norm_num) (by norm_num)
  have bic : (F64.fin (1261359739384627 / 2199023255552)).mul (F64.fin (3602879701896397 / 36028797018963968))
      = F64.fin (8072702332061613 / 140737488355328) := by
    rw [F64.mul_ofRat]
    exact F64.ofRat_eval _ (8072702332061613 / 140737488355328) (-47) 8072702332061613
      (by norm_num) (by norm_num) (by norm_num) (by norm_num) (by norm_num)
      (by norm_num) (by norm_num) (by norm_num) (by norm_num)
  have btot : (F64.fin (1261359739384627 / 2199023255552)).add (F64.fin (8072702332061613 / 140737488355328))
      = F64.fin (5549982853292359 / 8796093022208) := by
    rw [F64.add_ofRat]
    exact F64.ofRat_eval _ (5549982853292359 / 8796093022208) (-43) 5549982853292359
      (by norm_num) (by norm_num) (by norm_num) (by norm_num) (by norm_num)
      (by norm_num) (by norm_num) (by norm_num) (by norm_num)
  have btotal : (calculatePrice64
      { fd with
      length := .num 20, width := .num 30, height := .num 40,
      packageType := .str "fragile", isInsuranceRequired := .bool true }
      (F64.fin 100)).totalPrice = F64.fin (5549982853292359 / 8796093022208) := by
    rw [calculatePrice64_total_of _ (F64.fin 100) (F64.fin (5404319552844595 / 2251799813685248)) (3 / 2) true bvc
      (by simp [packageMultipliers64]) rfl,
      bdc, bs1, bs2, bfs, bs3, bs4, bpre, if_pos rfl, bc1, bic, btot]
  refine ⟨?_, ac1, atotal, btotal⟩
  show F64.add (F64.mul _ _) (F64.mul (F64.mul _ _) _)
    = F64.add (F64.add (F64.mul _ _) (F64.fin 0))
        (F64.mul (F64.add (F64.mul _ _) (F64.fin 0)) _)
  rw [F64.mul_add_zero]
  rfl

/-! ## Monotonicity (double precision) -/

/-- Counterexample to C10: for the initial form (standard, 10 x 10 x 10 cm, no
insurance) the code computes the same total, 380, for the distance 100 and
for the next double above 100: the total is not strictly increasing in the
distance. -/
theorem calculatePrice_not_strict_in_distance :
    (100 : ℚ) < (7036874417766401 / 70368744177664) ∧
    (calculatePrice64
      { initialFormData with
      length := .num 10, width := .num 10, height := .num 10,
      packageType := .str "standard", isInsuranceRequired := .bool false }
      (F64.fin 100)).totalPrice = F64.fin 380 ∧
    (calculatePrice64
      { initialFormData with
      length := .num 10, width := .num 10, height := .num 10,
      packageType := .str "standard", isInsuranceRequired := .bool false }
      (F64.fin (7036874417766401 / 70368744177664))).totalPrice = F64.fin 380 ∧
    ¬ F64.Lt
      (calculatePrice64
        { initialFormData with
      length := .num 10, width := .num 10, height := .num 10,
      packageType := .str "standard", isInsuranceRequired := .bool false }
        (F64.fin 100)).totalPrice
      (calculatePrice64
        { initialFormData with
      length := .num 10, width := .num 10, height := .num 10,
      packageType := .str "standard", isInsuranceRequired := .bool false }
        (F64.fin (7036874417766401 / 70368744177664))).totalPrice := by
  have pc01 : round64 (1 / 100) = (5764607523034235 / 576460752303423488) :=
    round64_eq_of _ (5764607523034235 / 576460752303423488) (-59) 5764607523034235
      (by norm_num) (by norm_num) (by norm_num) (by norm_num) (by norm_num)
      (by norm_num) (by norm_num)
  have pc1 : round64 (1 / 10) = (3602879701896397 / 36028797018963968) :=
    round64_eq_of _ (3602879701896397 / 36028797018963968) (-56) 7205759403792794
      (by norm_num) (by norm_num) (by norm_num) (by norm_num) (by norm_num)
      (by norm_num) (by norm_num)
  have pm1 : (F64.fin 10).mul (F64.fin 10)
      = F64.fin 100 := by
    rw [F64.mul_ofRat]
    exact F64.ofRat_eval _ 100 (-46) 7036874417766400
      (by norm_num) (by norm_num) (by norm_num) (by norm_num) (by norm_num)
      (by norm_num) (by norm_num) (by norm_num) (by norm_num)
  have pm2 : (F64.fin 100).mul (F64.fin 10)
      = F64.fin 1000 := by
    rw [F64.mul_ofRat]
    exact F64.ofRat_eval _ 1000 (-43) 8796093022208000
      (by norm_num) (by norm_num) (by norm_num) (by norm_num) (by norm_num)
      (by norm_num) (by norm_num) (by norm_num) (by norm_num)
  have pm3 : (F64.fin 1000).div (F64.fin 1000000)
      = F64.fin (1152921504606847 / 1152921504606846976) := by
    rw [F64.div_ofRat _ _ (by norm_num)]
    exact F64.ofRat_eval _ (1152921504606847 / 1152921504606846976) (-62) 4611686018427388
      (by norm_num) (by norm_num) (by norm_num) (by norm_num) (by norm_num)
      (by norm_num) (by norm_num) (by norm_num) (by norm_num)
  have pvc : volumeCharge64
      { initialFormData with
      length := .num 10, width := .num 10, height := .num 10,
      packageType := .str "standard", isInsuranceRequired := .bool false } = F64.fin 0 := by
    rw [volumeCharge64_of
      { initialFormData with
      length := .num 10, width := .num 10, height := .num 10,
      packageType := .str "standard", isInsuranceRequired := .bool false }
      (F64.fin 10) (F64.fin 10) (F64.fin 10) rfl rfl rfl,
      pm1, pm2, pm3, pc01, F64.gt_decide, if_neg (by norm_num)]
  have pdc : (F64.fin 100).mul (F64.fin 2)
      = F64.fin 200 := by
    rw [F64.mul_ofRat]
    exact F64.ofRat_eval _ 200 (-45) 7036874417766400
      (by norm_num) (by norm_num) (by norm_num) (by norm_num) (by norm_num)
      (by norm_num) (by norm_num) (by norm_num) (by norm_num)
  have ps1 : (F64.fin 80).add (F64.fin 200)
      = F64.fin 280 := by
    rw [F64.add_ofRat]
    exact F64.ofRat_eval _ 280 (-44) 4925812092436480
      (by norm_num) (by norm_num) (by norm_num) (by norm_num) (by norm_num)
      (by norm_num) (by norm_num) (by norm_num) (by norm_num)
  have ps2 : (F64.fin 280).add (F64.fin 50)
      = F64.fin 330 := by
    rw [F64.add_ofRat]
    exact F64.ofRat_eval _ 330 (-44) 5805421394657280
      (by norm_num) (by norm_num) (by norm_num) (by norm_num) (by norm_num)
      (by norm_num) (by norm_num) (by norm_num) (by norm_num)
  have pfs : (F64.fin 100).mul (F64.fin (1 / 2))
      = F64.fin 50 := by
    rw [F64.mul_ofRat]
    exact F64.ofRat_eval _ 50 (-47) 7036874417766400
      (by norm_num) (by norm_num) (by norm_num) (by norm_num) (by norm_num)
      (by norm_num) (by norm_num) (by norm_num) (by norm_num)
  have ps3 : (F64.fin 330).add (F64.fin 50)
      = F64.fin 380 := by
    rw [F64.add_ofRat]
    exact F64.ofRat_eval _ 380 (-44) 6685030696878080
      (by norm_num) (by norm_num) (by norm_num) (by norm_num) (by norm_num)
      (by norm_num) (by norm_num) (by norm_num) (by norm_num)
  have ps4 : (F64.fin 380).add (F64.fin 0)
      = F64.fin 380 := by
    rw [F64.add_ofRat]
    exact F64.ofRat_eval _ 380 (-44) 6685030696878080
      (by norm_num) (by norm_num) (by norm_num) (by norm_num) (by norm_num)
      (by norm_num) (by norm_num) (by norm_num) (by norm_num)
  have ppre : (F64.fin 380).mul (F64.fin 1)
      = F64.fin 380 := by
    rw [F64.mul_ofRat]
    exact F64.ofRat_eval _ 380 (-44) 6685030696878080
      (by norm_num) (by norm_num) (by norm_num) (by norm_num) (by norm_num)
      (by norm_num) (by norm_num) (by norm_num) (by norm_num)
  have ptot : (F64.fin 380).add (F64.fin 0)
      = F64.fin 380 := by
    rw [F64.add_ofRat]
    exact F64.ofRat_eval _ 380 (-44) 6685030696878080
      (by norm_num) (by norm_num) (by norm_num) (by norm_num) (by norm_num)
      (by norm_num) (by norm_num) (by norm_num) (by norm_num)
  have ptotal : (calculatePrice64
      { initialFormData with
      length := .num 10, width := .num 10, height := .num 10,
      packageType := .str "standard", isInsuranceRequired := .bool false }
      (F64.fin 100)).totalPrice = F64.fin 380 := by
    rw [calculatePrice64_total_of _ (F64.fin 100) (F64.fin 0) 1 false pvc
      (by simp [packageMultipliers64]) rfl,
      pdc, ps1, ps2, pfs, ps3, ps4, ppre, if_neg (by decide), ptot]
  have sc01 : round64 (1 / 100) = (5764607523034235 / 576460752303423488) :=
    round64_eq_of _ (5764607523034235 / 576460752303423488) (-59) 5764607523034235
      (by norm_num) (by norm_num) (by norm_num) (by norm_num) (by norm_num)
      (by norm_num) (by norm_num)
  have sc1 : round64 (1 / 10) = (3602879701896397 / 36028797018963968) :=
    round64_eq_of _ (3602879701896397 / 36028797018963968) (-56) 7205759403792794
      (by norm_num) (by norm_num) (by norm_num) (by norm_num) (by norm_num)
      (by norm_num) (by norm_num)
  have sm1 : (F64.fin 10).mul (F64.fin 10)
      = F64.fin 100 := by
    rw [F64.mul_ofRat]
    exact F64.ofRat_eval _ 100 (-46) 7036874417766400
      (by norm_num) (by norm_num) (by norm_num) (by norm_num) (by norm_num)
      (by norm_num) (by norm_num) (by norm_num) (by norm_num)
  have sm2 : (F64.fin 100).mul (F64.fin 10)
      = F64.fin 1000 := by
    rw [F64.mul_ofRat]
    exact F64.ofRat_eval _ 1000 (-43) 8796093022208000
      (by norm_num) (by norm_num) (by norm_num) (by norm_num) (by norm_num)
      (by norm_num) (by norm_num) (by norm_num) (by norm_num)
  have sm3 : (F64.fin 1000).div (F64.fin 1000000)
      = F64.fin (1152921504606847 / 1152921504606846976) := by
    rw [F64.div_ofRat _ _ (by norm_num)]
    exact F64.ofRat_eval _ (1152921504606847 / 1152921504606846976) (-62) 4611686018427388
      (by norm_num) (by norm_num) (by norm_num) (by norm_num) (by norm_num)
      (by norm_num) (by norm_num) (by norm_num) (by norm_num)
  have svc : volumeCharge64
      { initialFormData with
      length := .num 10, width := .num 10, height := .num 10,
      packageType := .str "standard", isInsuranceRequired := .bool false } = F64.fin 0 := by
    rw [volumeCharge64_of
      { initialFormData with
      length := .num 10, width := .num 10, height := .num 10,
      packageType := .str "standard", isInsuranceRequired := .bool false }
      (F64.fin 10) (F64.fin 10) (F64.fin 10) rfl rfl rfl,
      sm1, sm2, sm3, sc01, F64.gt_decide, if_neg (by norm_num)]
  have sdc : (F64.fin (7036874417766401 / 70368744177664)).mul (F64.fin 2)
      = F64.fin (7036874417766401 / 35184372088832) := by
    rw [F64.mul_ofRat]
    exact F64.ofRat_eval _ (7036874417766401 / 35184372088832) (-45) 7036874417766401
      (by norm_num) (by norm_num) (by norm_num) (by norm_num) (by norm_num)
      (by norm_num) (by norm_num) (by norm_num) (by norm_num)
  have ss1 : (F64.fin 80).add (F64.fin (7036874417766401 / 35184372088832))
      = F64.fin 280 := by
    rw [F64.add_ofRat]
    exact F64.ofRat_eval_tie _ 280 (-44) 4925812092436480
      (by norm_num) (by norm_num) (by norm_num) (by norm_num) (by norm_num)
      (by decide) (by norm_num) (by norm_num) (by norm_num)
  have ss2 : (F64.fin 280).add (F64.fin 50)
      = F64.fin 330 := by
    rw [F64.add_ofRat]
    exact F64.ofRat_eval _ 330 (-44) 5805421394657280
      (by norm_num) (by norm_num) (by norm_num) (by norm_num) (by norm_num)
      (by norm_num) (by norm_num) (by norm_num) (by norm_num)
  have sfs : (F64.fin (7036874417766401 / 70368744177664)).mul (F64.fin (1 / 2))
      = F64.fin (7036874417766401 / 140737488355328) := by
    rw [F64.mul_ofRat]
    exact F64.ofRat_eval _ (7036874417766401 / 140737488355328) (-47) 7036874417766401
      (by norm_num) (by norm_num) (by norm_num) (by norm_num) (by norm_num)
      (by norm_num) (by norm_num) (by norm_num) (by norm_num)
  have ss3 : (F64.fin 330).add (F64.fin (7036874417766401 / 140737488355328))
      = F64.fin 380 := by
    rw [F64.add_ofRat]
    exact F64.ofRat_eval _ 380 (-44) 6685030696878080
      (by norm_num) (by norm_num) (by norm_num) (by norm_num) (by norm_num)
      (by norm_num) (by norm_num) (by norm_num) (by norm_num)
  have ss4 : (F64.fin 380).add (F64.fin 0)
      = F64.fin 380 := by
    rw [F64.add_ofRat]
    exact F64.ofRat_eval _ 380 (-44) 6685030696878080
      (by norm_num) (by norm_num) (by norm_num) (by norm_num) (by norm_num)
      (by norm_num) (by norm_num) (by norm_num) (by norm_num)
  have spre : (F64.fin 380).mul (F64.fin 1)
      = F64.fin 380 := by
    rw [F64.mul_ofRat]
    exact F64.ofRat_eval _ 380 (-44) 6685030696878080
      (by norm_num) (by norm_num) (by norm_num) (by norm_num) (by norm_num)
      (by norm_num) (by norm_num) (by norm_num) (by norm_num)
  have stot : (F64.fin 380).add (F64.fin 0)
      = F64.fin 380 := by
    rw [F64.add_ofRat]
    exact F64.ofRat_eval _ 380 (-44) 6685030696878080
      (by norm_num) (by norm_num) (by norm_num) (by norm_num) (by norm_num)
      (by norm_num) (by norm_num) (by norm_num) (by norm_num)
  have stotal : (calculatePrice64
      { initialFormData with
      length := .num 10, width := .num 10, height := .num 10,
      packageType := .str "standard", isInsuranceRequired := .bool false }
      (F64.fin (7036874417766401 / 70368744177664))).totalPrice = F64.fin 380 := by
    rw [calculatePrice64_total_of _ (F64.fin (7036874417766401 / 70368744177664)) (F64.fin 0) 1 false svc
      (by simp [packageMultipliers64]) rfl,
      sdc, ss1, ss2, sfs, ss3, ss4, spre, if_neg (by decide), stot]
  refine ⟨by norm_num, ptotal, stotal, ?_⟩
  rw [ptotal, stotal]
  exact lt_irrefl (380 : ℚ)

/-- C10, amended: in the double arithmetic of the code, for each of the three
package types and a fixed insurance flag, the total does not decrease when
the distance (at least 0) and the three dimensions (above 0) do not
decrease, also across the step of the volume charge and when an operation
overflows to Infinity. -/
theorem calculatePrice_monotone (f1 f2 : FormData) (pt : String) (ins : Bool)
    (d1 d2 l1 l2 w1 w2 h1 h2 : ℚ)
    (hl1 : toNumber64 f1.length = F64.fin l1) (hw1 : toNumber64 f1.width = F64.fin w1)
    (hh1 : toNumber64 f1.height = F64.fin h1)
    (hl2 : toNumber64 f2.length = F64.fin l2) (hw2 : toNumber64 f2.width = F64.fin w2)
    (hh2 : toNumber64 f2.height = F64.fin h2)
    (hp1 : f1.packageType = .str pt) (hp2 : f2.packageType = .str pt)
    (hpt : pt = "standard" ∨ pt = "fragile" ∨ pt = "document")
    (hi1 : f1.isInsuranceRequired = .bool ins) (hi2 : f2.isInsuranceRequired = .bool ins)
    (hd0 : 0 ≤ d1) (hd : d1 ≤ d2) (hl0 : 0 < l1) (hl : l1 ≤ l2)
    (hw0 : 0 < w1) (hw : w1 ≤ w2) (hh0 : 0 < h1) (hh : h1 ≤ h2) :
    F64.Le (calculatePrice64 f1 (F64.fin d1)).totalPrice
      (calculatePrice64 f2 (F64.fin d2)).totalPrice := by
  -- the multiplier and the insurance rate are positive doubles
  have hhalf : round64 (1 / 2) = 1 / 2 := by
    have := round64_of_significand 1 (-1) (by norm_num) (by norm_num) (by norm_num)
    norm_num at this
    norm_num
    exact this
  have hsix : round64 (1 / 16) = 1 / 16 := by
    have := round64_of_significand 1 (-4) (by norm_num) (by norm_num) (by norm_num)
    norm_num at this
    norm_num
    exact this
  have hrate : (0 : ℚ) < round64 (1 / 10) := by
    have := round64_mono (x := 1 / 16) (y := 1 / 10) (by norm_num) (by norm_num)
    rw [hsix] at this
    linarith
  obtain ⟨m, hm, hm0⟩ : ∃ m : ℚ, packageMultipliers64 (.str pt) = some m ∧ 0 < m := by
    rcases hpt with rfl | rfl | rfl
    · exact ⟨1, by simp [packageMultipliers64], by norm_num⟩
    · exact ⟨3 / 2, by simp [packageMultipliers64], by norm_num⟩
    · refine ⟨round64 (4 / 5), by simp [packageMultipliers64], ?_⟩
      have := round64_mono (x := 1 / 2) (y := 4 / 5) (by norm_num) (by norm_num)
      rw [hhalf] at this
      linarith
  -- the volume
  have nL : (F64.fin l1).NonNeg := hl0.le
  have eL : (F64.fin l1).Le (F64.fin l2) := hl
  have nA := F64.nonneg_mul nL hw0
  have eA := F64.le_mul nL eL hw0 hw
  have nB := F64.nonneg_mul nA hh0
  have eB := F64.le_mul nA eA hh0 hh
  have nV := F64.nonneg_div nB (by norm_num : (0 : ℚ) < 1000000)
  have eV := F64.le_div nB eB (by norm_num : (0 : ℚ) < 1000000)
  have nV2 := F64.nonneg_of_le nV eV
  -- the volume charge
  have hvc : (volumeCharge64 f1).NonNeg ∧ (volumeCharge64 f1).Le (volumeCharge64 f2) := by
    rw [volumeCharge64_of f1 _ _ _ hl1 hw1 hh1, volumeCharge64_of f2 _ _ _ hl2 hw2 hh2]
    by_cases g1 : ((((F64.fin l1).mul (F64.fin w1)).mul (F64.fin h1)).div
        (F64.fin 1000000)).gt (F64.fin (round64 (1 / 100))) = true
    · rw [if_pos g1, if_pos (F64.gt_of_le eV g1)]
      exact ⟨F64.nonneg_mul nV (by norm_num), F64.le_mul nV eV (by norm_num) (le_refl _)⟩
    · rw [if_neg g1]
      refine ⟨le_refl (0 : ℚ), ?_⟩
      split_ifs
      · exact F64.zero_le_of_nonneg (F64.nonneg_mul nV2 (by norm_num))
      · exact le_refl (0 : ℚ)
  -- the subtotal
  have nD : (F64.fin d1).NonNeg := hd0
  have eD : (F64.fin d1).Le (F64.fin d2) := hd
  have nDC := F64.nonneg_mul nD (by norm_num : (0 : ℚ) < 2)
  have eDC := F64.le_mul nD eD (by norm_num : (0 : ℚ) < 2) (le_refl _)
  have nFS := F64.nonneg_mul nD (by norm_num : (0 : ℚ) < 1 / 2)
  have eFS := F64.le_mul nD eD (by norm_num : (0 : ℚ) < 1 / 2) (le_refl _)
  have n80 : (F64.fin 80).NonNeg := by
    show (0 : ℚ) ≤ 80
    norm_num
  have e80 : (F64.fin 80).Le (F64.fin 80) := le_refl (80 : ℚ)
  have n50 : (F64.fin 50).NonNeg := by
    show (0 : ℚ) ≤ 50
    norm_num
  have e50 : (F64.fin 50).Le (F64.fin 50) := le_refl (50 : ℚ)
  have nS1 := F64.nonneg_add n80 nDC
  have eS1 := F64.le_add n80 nDC e80 eDC
  have nS2 := F64.nonneg_add nS1 n50
  have eS2 := F64.le_add nS1 n50 eS1 e50
  have nS3 := F64.nonneg_add nS2 nFS
  have eS3 := F64.le_add nS2 nFS eS2 eFS
  have nS4 := F64.nonneg_add nS3 hvc.1
  have eS4 := F64.le_add nS3 hvc.1 eS3 hvc.2
  have nP := F64.nonneg_mul nS4 hm0
  have eP := F64.le_mul nS4 eS4 hm0 (le_refl m)
  rw [calculatePrice64_total_of f1 (F64.fin d1) _ m ins rfl (hp1 ▸ hm) (by rw [hi1]; rfl),
    calculatePrice64_total_of f2 (F64.fin d2) _ m ins rfl (hp2 ▸ hm) (by rw [hi2]; rfl)]
  cases ins with
  | false =>
    rw [if_neg (by decide), if_neg (by decide)]
    exact F64.le_add nP (le_refl (0 : ℚ)) eP (le_refl (0 : ℚ))
  | true =>
    rw [if_pos rfl, if_pos rfl]
    exact F64.le_add nP (F64.nonneg_mul nP hrate) eP (F64.le_mul nP eP hrate (le_refl _))

/-- Witness of C10 amended: a fragile insured parcel growing from
"10" x "10" x "10" cm over 5 km (total 235.125) to "30" x "40" x "50" cm over
8 km (total 257.4), across the step of the volume charge. -/
theorem calculatePrice_monotone_witness :
    F64.Le
      (calculatePrice64
        { initialFormData with
      length := .str "10", width := .str "10", height := .str "10",
      packageType := .str "fragile", isInsuranceRequired := .bool true }
        (F64.fin 5)).totalPrice
      (calculatePrice64
        { initialFormData with
      length := .str "30", width := .str "40", height := .str "50",
      packageType := .str "fragile", isInsuranceRequired := .bool true }
        (F64.fin 8)).totalPrice ∧
    (calculatePrice64
      { initialFormData with
      length := .str "10", width := .str "10", height := .str "10",
      packageType := .str "fragile", isInsuranceRequired := .bool true }
      (F64.fin 5)).totalPrice = F64.fin (1881 / 8) ∧
    (calculatePrice64
      { initialFormData with
      length := .str "30", width := .str "40", height := .str "50",
      packageType := .str "fragile", isInsuranceRequired := .bool true }
      (F64.fin 8)).totalPrice = F64.fin (2264114343916339 / 8796093022208) := by
  have n10 : toNumber64 (.str "10") = F64.fin 10 := by
    have s : stringToNumber "10" = Num.fin 10 := by
      simp [stringToNumber, isStrWhiteSpace, nonDecimalIntegerLiteral,
      strUnsignedDecimalLiteral, takeDigits, digitValue, exponentPart, digitsToNat]
    have e : stringToNumber64 "10" = F64.ofRat 10 := by
      simp [stringToNumber64, s, isStrWhiteSpace]
    show stringToNumber64 "10" = _
    rw [e]
    exact F64.ofRat_eval _ 10 (-49) 5629499534213120
      (by norm_num) (by norm_num) (by norm_num) (by norm_num) (by norm_num)
      (by norm_num) (by norm_num) (by norm_num) (by norm_num)
  have n30 : toNumber64 (.str "30") = F64.fin 30 := by
    have s : stringToNumber "30" = Num.fin 30 := by
      simp [stringToNumber, isStrWhiteSpace, nonDecimalIntegerLiteral,
      strUnsignedDecimalLiteral, takeDigits, digitValue, exponentPart, digitsToNat]
    have e : stringToNumber64 "30" = F64.ofRat 30 := by
      simp [stringToNumber64, s, isStrWhiteSpace]
    show stringToNumber64 "30" = _
    rw [e]
    exact F64.ofRat_eval _ 30 (-48) 8444249301319680
      (by norm_num) (by norm_num) (by norm_num) (by norm_num) (by norm_num)
      (by norm_num) (by norm_num) (by norm_num) (by norm_num)
  have n40 : toNumber64 (.str "40") = F64.fin 40 := by
    have s : stringToNumber "40" = Num.fin 40 := by
      simp [stringToNumber, isStrWhiteSpace, nonDecimalIntegerLiteral,
      strUnsignedDecimalLiteral, takeDigits, digitValue, exponentPart, digitsToNat]
    have e : stringToNumber64 "40" = F64.ofRat 40 := by
      simp [stringToNumber64, s, isStrWhiteSpace]
    show stringToNumber64 "40" = _
    rw [e]
    exact F64.ofRat_eval _ 40 (-47) 5629499534213120
      (by norm_num) (by norm_num) (by norm_num) (by norm_num) (by norm_num)
      (by norm_num) (by norm_num) (by norm_num) (by norm_num)
  have n50 : toNumber64 (.str "50") = F64.fin 50 := by
    have s : stringToNumber "50" = Num.fin 50 := by
      simp [stringToNumber, isStrWhiteSpace, nonDecimalIntegerLiteral,
      strUnsignedDecimalLiteral, takeDigits, digitValue, exponentPart, digitsToNat]
    have e : stringToNumber64 "50" = F64.ofRat 50 := by
      simp [stringToNumber64, s, isStrWhiteSpace]
    show stringToNumber64 "50" = _
    rw [e]
    exact F64.ofRat_eval _ 50 (-47) 7036874417766400
      (by norm_num) (by norm_num) (by norm_num) (by norm_num) (by norm_num)
      (by norm_num) (by norm_num) (by norm_num) (by norm_num)
  have ac01 : round64 (1 / 100) = (5764607523034235 / 576460752303423488) :=
    round64_eq_of _ (5764607523034235 / 576460752303423488) (-59) 5764607523034235
      (by norm_num) (by norm_num) (by norm_num) (by norm_num) (by norm_num)
      (by norm_num) (by norm_num)
  have ac1 : round64 (1 / 10) = (3602879701896397 / 36028797018963968) :=
    round64_eq_of _ (3602879701896397 / 36028797018963968) (-56) 7205759403792794
      (by norm_num) (by norm_num) (by norm_num) (by norm_num) (by norm_num)
      (by norm_num) (by norm_num)
  have am1 : (F64.fin 10).mul (F64.fin 10)
      = F64.fin 100 := by
    rw [F64.mul_ofRat]
    exact F64.ofRat_eval _ 100 (-46) 7036874417766400
      (by norm_num) (by norm_num) (by norm_num) (by norm_num) (by norm_num)
      (by norm_num) (by norm_num) (by norm_num) (by norm_num)
  have am2 : (F64.fin 100).mul (F64.fin 10)
      = F64.fin 1000 := by
    rw [F64.mul_ofRat]
    exact F64.ofRat_eval _ 1000 (-43) 8796093022208000
      (by norm_num) (by norm_num) (by norm_num) (by norm_num) (by norm_num)
      (by norm_num) (by norm_num) (by norm_num) (by norm_num)
  have am3 : (F64.fin 1000).div (F64.fin 1000000)
      = F64.fin (1152921504606847 / 1152921504606846976) := by
    rw [F64.div_ofRat _ _ (by norm_num)]
    exact F64.ofRat_eval _ (1152921504606847 / 1152921504606846976) (-62) 4611686018427388
      (by norm_num) (by norm_num) (by norm_num) (by norm_num) (by norm_num)
      (by norm_num) (by norm_num) (by norm_num) (by norm_num)
  have avc : volumeCharge64
      { initialFormData with
      length := .str "10", width := .str "10", height := .str "10",
      packageType := .str "fragile", isInsuranceRequired := .bool true } = F64.fin 0 := by
    rw [volumeCharge64_of
      { initialFormData with
      length := .str "10", width := .str "10", height := .str "10",
      packageType := .str "fragile", isInsuranceRequired := .bool true }
      (F64.fin 10) (F64.fin 10) (F64.fin 10) n10 n10 n10,
      am1, am2, am3, ac01, F64.gt_decide, if_neg (by norm_num)]
  have adc : (F64.fin 5).mul (F64.fin 2)
      = F64.fin 10 := by
    rw [F64.mul_ofRat]
    exact F64.ofRat_eval _ 10 (-49) 5629499534213120
      (by norm_num) (by norm_num) (by norm_num) (by norm_num) (by norm_num)
      (by norm_num) (by norm_num) (by norm_num) (by norm_num)
  have as1 : (F64.fin 80).add (F64.fin 10)
      = F64.fin 90 := by
    rw [F64.add_ofRat]
    exact F64.ofRat_eval _ 90 (-46) 6333186975989760
      (by norm_num) (by norm_num) (by norm_num) (by norm_num) (by norm_num)
      (by norm_num) (by norm_num) (by norm_num) (by norm_num)
  have as2 : (F64.fin 90).add (F64.fin 50)
      = F64.fin 140 := by
    rw [F64.add_ofRat]
    exact F64.ofRat_eval _ 140 (-45) 4925812092436480
      (by norm_num) (by norm_num) (by norm_num) (by norm_num) (by norm_num)
      (by norm_num) (by norm_num) (by norm_num) (by norm_num)
  have afs : (F64.fin 5).mul (F64.fin (1 / 2))
      = F64.fin (5 / 2) := by
    rw [F64.mul_ofRat]
    exact F64.ofRat_eval _ (5 / 2) (-51) 5629499534213120
      (by norm_num) (by norm_num) (by norm_num) (by norm_num) (by norm_num)
      (by norm_num) (by norm_num) (by norm_num) (by norm_num)
  have as3 : (F64.fin 140).add (F64.fin (5 / 2))
      = F64.fin (285 / 2) := by
    rw [F64.add_ofRat]
    exact F64.ofRat_eval _ (285 / 2) (-45) 5013773022658560
      (by norm_num) (by norm_num) (by norm_num) (by norm_num) (by norm_num)
      (by norm_num) (by norm_num) (by norm_num) (by norm_num)
  have as4 : (F64.fin (285 / 2)).add (F64.fin 0)
      = F64.fin (285 / 2) := by
    rw [F64.add_ofRat]
    exact F64.ofRat_eval _ (285 / 2) (-45) 5013773022658560
      (by norm_num) (by norm_num) (by norm_num) (by norm_num) (by norm_num)
      (by norm_num) (by norm_num) (by norm_num) (by norm_num)
  have apre : (F64.fin (285 / 2)).mul (F64.fin (3 / 2))
      = F64.fin (855 / 4) := by
    rw [F64.mul_ofRat]
    exact F64.ofRat_eval _ (855 / 4) (-45) 7520659533987840
      (by norm_num) (by norm_num) (by norm_num) (by norm_num) (by norm_num)
      (by norm_num) (by norm_num) (by norm_num) (by norm_num)
  have aic : (F64.fin (855 / 4)).mul (F64.fin (3602879701896397 / 36028797018963968))
      = F64.fin (171 / 8) := by
    rw [F64.mul_ofRat]
    exact F64.ofRat_eval _ (171 / 8) (-48) 6016527627190272
      (by norm_num) (by norm_num) (by norm_num) (by norm_num) (by norm_num)
      (by norm_num) (by norm_num) (by norm_num) (by norm_num)
  have atot : (F64.fin (855 / 4)).add (F64.fin (171 / 8))
      = F64.fin (1881 / 8) := by
    rw [F64.add_ofRat]
    exact F64.ofRat_eval _ (1881 / 8) (-45) 8272725487386624
      (by norm_num) (by norm_num) (by norm_num) (by norm_num) (by norm_num)
      (by norm_num) (by norm_num) (by norm_num) (by norm_num)
  have atotal : (calculatePrice64
      { initialFormData with
      length := .str "10", width := .str "10", height := .str "10",
      packageType := .str "fragile", isInsuranceRequired := .bool true }
      (F64.fin 5)).totalPrice = F64.fin (1881 / 8) := by
    rw [calculatePrice64_total_of _ (F64.fin 5) (F64.fin 0) (3 / 2) true avc
      (by simp [packageMultipliers64]) rfl,
      adc, as1, as2, afs, as3, as4, apre, if_pos rfl, ac1, aic, atot]
  have bc01 : round64 (1 / 100) = (5764607523034235 / 576460752303423488) :=
    round64_eq_of _ (5764607523034235 / 576460752303423488) (-59) 5764607523034235
      (by norm_num) (by norm_num) (by norm_num) (by norm_num) (by norm_num)
      (by norm_num) (by norm_num)
  have bc1 : round64 (1 / 10) = (3602879701896397 / 36028797018963968) :=
    round64_eq_of _ (3602879701896397 / 36028797018963968) (-56) 7205759403792794
      (by norm_num) (by norm_num) (by norm_num) (by norm_num) (by norm_num)
      (by norm_num) (by norm_num)
  have bm1 : (F64.fin 30).mul (F64.fin 40)
      = F64.fin 1200 := by
    rw [F64.mul_ofRat]
    exact F64.ofRat_eval _ 1200 (-42) 5277655813324800
      (by norm_num) (by norm_num) (by norm_num) (by norm_num) (by norm_num)
      (by norm_num) (by norm_num) (by norm_num) (by norm_num)
  have bm2 : (F64.fin 1200).mul (F64.fin 50)
      = F64.fin 60000 := by
    rw [F64.mul_ofRat]
    exact F64.ofRat_eval _ 60000 (-37) 8246337208320000
      (by norm_num) (by norm_num) (by norm_num) (by norm_num) (by norm_num)
      (by norm_num) (by norm_num) (by norm_num) (by norm_num)
  have bm3 : (F64.fin 60000).div (F64.fin 1000000)
      = F64.fin (1080863910568919 / 18014398509481984) := by
    rw [F64.div_ofRat _ _ (by norm_num)]
    exact F64.ofRat_eval _ (1080863910568919 / 18014398509481984) (-57) 8646911284551352
      (by norm_num) (by norm_num) (by norm_num) (by norm_num) (by norm_num)
      (by norm_num) (by norm_num) (by norm_num) (by norm_num)
  have bm4 : (F64.fin (1080863910568919 / 18014398509481984)).mul (F64.fin 100)
      = F64.fin 6 := by
    rw [F64.mul_ofRat]
    exact F64.ofRat_eval _ 6 (-50) 6755399441055744
      (by norm_num) (by norm_num) (by norm_num) (by norm_num) (by norm_num)
      (by norm_num) (by norm_num) (by norm_num) (by norm_num)
  have bvc : volumeCharge64
      { initialFormData with
      length := .str "30", width := .str "40", height := .str "50",
      packageType := .str "fragile", isInsuranceRequired := .bool true } = F64.fin 6 := by
    rw [volumeCharge64_of
      { initialFormData with
      length := .str "30", width := .str "40", height := .str "50",
      packageType := .str "fragile", isInsuranceRequired := .bool true }
      (F64.fin 30) (F64.fin 40) (F64.fin 50) n30 n40 n50,
      bm1, bm2, bm3, bc01, F64.gt_decide, if_pos (by norm_num), bm4]
  have bdc : (F64.fin 8).mul (F64.fin 2)
      = F64.fin 16 := by
    rw [F64.mul_ofRat]
    exact F64.ofRat_eval _ 16 (-48) 4503599627370496
      (by norm_num) (by norm_num) (by norm_num) (by norm_num) (by norm_num)
      (by norm_num) (by norm_num) (by norm_num) (by norm_num)
  have bs1 : (F64.fin 80).add (F64.fin 16)
      = F64.fin 96 := by
    rw [F64.add_ofRat]
    exact F64.ofRat_eval _ 96 (-46) 6755399441055744
      (by norm_num) (by norm_num) (by norm_num) (by norm_num) (by norm_num)
      (by norm_num) (by norm_num) (by norm_num) (by norm_num)
  have bs2 : (F64.fin 96).add (F64.fin 50)
      = F64.fin 146 := by
    rw [F64.add_ofRat]
    exact F64.ofRat_eval _ 146 (-45) 5136918324969472
      (by norm_num) (by norm_num) (by norm_num) (by norm_num) (by norm_num)
      (by norm_num) (by norm_num) (by norm_num) (by norm_num)
  have bfs : (F64.fin 8).mul (F64.fin (1 / 2))
      = F64.fin 4 := by
    rw [F64.mul_ofRat]
    exact F64.ofRat_eval _ 4 (-50) 4503599627370496
      (by norm_num) (by norm_num) (by norm_num) (by norm_num) (by norm_num)
      (by norm_num) (by norm_num) (by norm_num) (by norm_num)
  have bs3 : (F64.fin 146).add (F64.fin 4)
      = F64.fin 150 := by
    rw [F64.add_ofRat]
    exact F64.ofRat_eval _ 150 (-45) 5277655813324800
      (by norm_num) (by norm_num) (by norm_num) (by norm_num) (by norm_num)
      (by norm_num) (by norm_num) (by norm_num) (by norm_num)
  have bs4 : (F64.fin 150).add (F64.fin 6)
      = F64.fin 156 := by
    rw [F64.add_ofRat]
    exact F64.ofRat_eval _ 156 (-45) 5488762045857792
      (by norm_num) (by norm_num) (by norm_num) (by norm_num) (by norm_num)
      (by norm_num) (by norm_num) (by norm_num) (by norm_num)
  have bpre : (F64.fin 156).mul (F64.fin (3 / 2))
      = F64.fin 234 := by
    rw [F64.mul_ofRat]
    exact F64.ofRat_eval _ 234 (-45) 8233143068786688
      (by norm_num) (by norm_num) (by norm_num) (by norm_num) (by norm_num)
      (by norm_num) (by norm_num) (by norm_num) (by norm_num)
  have bic : (F64.fin 234).mul (F64.fin (3602879701896397 / 36028797018963968))
      = F64.fin (6586514455029351 / 281474976710656) := by
    rw [F64.mul_ofRat]
    exact F64.ofRat_eval _ (6586514455029351 / 281474976710656) (-48) 6586514455029351
      (by norm_num) (by norm_num) (by norm_num) (by norm_num) (by norm_num)
      (by norm_num) (by norm_num) (by norm_num) (by norm_num)
  have btot : (F64.fin 234).add (F64.fin (6586514455029351 / 281474976710656))
      = F64.fin (2264114343916339 / 8796093022208) := by
    rw [F64.add_ofRat]
    exact F64.ofRat_eval _ (2264114343916339 / 8796093022208) (-44) 4528228687832678
      (by norm_num) (by norm_num) (by norm_num) (by norm_num) (by norm_num)
      (by norm_num) (by norm_num) (by norm_num) (by norm_num)
  have btotal : (calculatePrice64
      { initialFormData with
      length := .str "30", width := .str "40", height := .str "50",
      packageType := .str "fragile", isInsuranceRequired := .bool true }
      (F64.fin 8)).totalPrice = F64.fin (2264114343916339 / 8796093022208) := by
    rw [calculatePrice64_total_of _ (F64.fin 8) (F64.fin 6) (3 / 2) true bvc
      (by simp [packageMultipliers64]) rfl,
      bdc, bs1, bs2, bfs, bs3, bs4, bpre, if_pos rfl, bc1, bic, btot]
  exact ⟨calculatePrice_monotone
    { initialFormData with
      length := .str "10", width := .str "10", height := .str "10",
      packageType := .str "fragile", isInsuranceRequired := .bool true }
    { initialFormData with
      length := .str "30", width := .str "40", height := .str "50",
      packageType := .str "fragile", isInsuranceRequired := .bool true }
    "fragile" true 5 8 10 30 10 40 10 50 n10 n10 n10 n30 n40 n50 rfl rfl (Or.inr (Or.inl rfl))
    rfl rfl (by norm_num) (by norm_num) (by norm_num) (by norm_num) (by norm_num) (by norm_num)
    (by norm_num) (by norm_num), atotal, btotal⟩

end Crown
